import Mathlib

/-!
# Dviglo engine: verification development

Shallow embedding of parts of the Dviglo engine (constant buffers, texture
size/data validation, the audio mixer, the log, font faces and the Direct3D11
shader bytecode cache) together with theorems about them.

Conventions
* `unsigned` / `u32` values are natural numbers reduced modulo `2^32`.
* `int` / `i32` values are integers; results of arithmetic are brought back
  into the signed 32-bit range by `wrapI32` (two's complement).
* Pointers and GPU handles are natural numbers, `0` being the null handle.
* Calls into the graphics API or the audio device are parameters of the
  embedded functions.
-/

namespace Dviglo

/-! ## Machine integers -/

/-- Reduction of a natural number to an unsigned 32-bit value. -/
def wrapU32 (n : Nat) : Nat := n % 4294967296

/-- Two's complement reduction of an integer to the signed 32-bit range. -/
def wrapI32 (i : Int) : Int := (i + 2147483648) % 4294967296 - 2147483648

/-- Conversion `int -> unsigned`: the two's complement bit pattern. -/
def toU32 (i : Int) : Nat := (i % 4294967296).toNat

/-- Conversion `unsigned -> int`: reinterpretation of the bit pattern. -/
def toI32 (n : Nat) : Int := wrapI32 (Int.ofNat n)

/-- Membership in the signed 32-bit range. -/
def isI32 (i : Int) : Prop := -2147483648 ≤ i ∧ i ≤ 2147483647

instance (i : Int) : Decidable (isI32 i) := by
  unfold isI32
  exact inferInstance

/-! ## ConstantBuffer (d3d11_constant_buffer.cpp, ogl_constant_buffer.cpp) -/

/-- The members of `ConstantBuffer` used by `Release` and `SetSize`.
`graphics_` records whether the graphics subsystem pointer is non-null,
`object_` is the GPU object (`object_.ptr_` on Direct3D11, `object_.name_` on
OpenGL), `shadowData_` is the shared array (`none` when reset). -/
structure ConstantBuffer where
  graphics_ : Bool
  object_ : Nat
  shadowData_ : Option (List Nat)
  size_ : Nat
  dirty_ : Bool
deriving DecidableEq, Repr

/-- The statement pair `size += 15; size &= 0xfffffff0;` on an `unsigned`. -/
def roundUpSize (size : Nat) : Nat :=
  Nat.land (wrapU32 (size + 15)) 4294967280

/-- The function `ConstantBuffer::Release_D3D11`. -/
def ConstantBuffer.Release_D3D11 (cb : ConstantBuffer) : ConstantBuffer :=
  { cb with object_ := 0, shadowData_ := none, size_ := 0 }

/-- The function `ConstantBuffer::SetSize_D3D11`. The parameter `createBuffer` stands for
`ID3D11Device::CreateBuffer`: given the byte width it yields the new buffer
handle, or `none` when the call fails. -/
def ConstantBuffer.SetSize_D3D11 (createBuffer : Nat → Option Nat) (size : Nat)
    (cb : ConstantBuffer) : ConstantBuffer × Bool :=
  let cb := cb.Release_D3D11
  if size = 0 then
    (cb, false)
  else
    let size := roundUpSize size
    let cb := { cb with size_ := size, dirty_ := false,
                        shadowData_ := some (List.replicate size 0) }
    if cb.graphics_ then
      match createBuffer cb.size_ with
      | some h => ({ cb with object_ := h }, true)
      | none => ({ cb with object_ := 0 }, false)
    else
      (cb, true)

/-- The function `ConstantBuffer::Release_OGL` (desktop GL build). -/
def ConstantBuffer.Release_OGL (cb : ConstantBuffer) : ConstantBuffer :=
  if cb.object_ ≠ 0 ∧ !cb.graphics_ then
    cb
  else
    { cb with object_ := 0, shadowData_ := none, size_ := 0 }

/-- The function `ConstantBuffer::SetSize_OGL` (desktop GL build). The parameter
`genBuffer` is the name handed out by `glGenBuffers`. -/
def ConstantBuffer.SetSize_OGL (genBuffer : Nat) (size : Nat)
    (cb : ConstantBuffer) : ConstantBuffer × Bool :=
  if size = 0 then
    (cb, false)
  else
    let size := roundUpSize size
    let cb := { cb with size_ := size, dirty_ := false,
                        shadowData_ := some (List.replicate size 0) }
    if cb.graphics_ then
      if cb.object_ = 0 then
        ({ cb with object_ := genBuffer }, true)
      else
        (cb, true)
    else
      (cb, true)

/-- A constant buffer that already holds a 16-byte buffer with pending data. -/
def sampleConstantBuffer : ConstantBuffer :=
  { graphics_ := true, object_ := 7, shadowData_ := some (List.replicate 16 0),
    size_ := 16, dirty_ := true }

/-! ## Textures (texture_2d_array.cpp, d3d11_texture_3d.cpp) -/

/-- The enumeration `TextureUsage` of the graphics definitions. -/
inductive TextureUsage where
  | TEXTURE_STATIC
  | TEXTURE_DYNAMIC
  | TEXTURE_RENDERTARGET
  | TEXTURE_DEPTHSTENCIL
deriving DecidableEq, Repr

/-- The enumerator `FILTER_NEAREST` of `TextureFilterMode`, the first of its
enumeration. Filter modes are kept as their numeric values. -/
def FILTER_NEAREST : Nat := 0

/-- The members of `Texture2DArray` that `SetSize` reads or writes.
`renderSurface_` is the owned render surface (`none` when the shared pointer is
null); `subscribed_` records the subscription to `E_RENDERSURFACEUPDATE`. -/
structure Texture2DArray where
  renderSurface_ : Option Nat
  usage_ : TextureUsage
  filterMode_ : Nat
  width_ : Int
  height_ : Int
  format_ : Nat
  depth_ : Int
  layers_ : Nat
  layerMemoryUse_ : List Nat
  subscribed_ : Bool
deriving DecidableEq, Repr

/-- What a call of `Texture2DArray::SetSize` leaves behind: the texture, the
returned flag, and how many times `Create()` was run. -/
structure SetSizeOutcome where
  texture : Texture2DArray
  result : Bool
  createCalls : Nat
deriving DecidableEq, Repr

/-- The function `Texture2DArray::SetSize`. The parameter `newSurface` is the render surface
allocated by `new RenderSurface(this)`, and `create` is the back end's
`Create()`. -/
def Texture2DArray.SetSize (newSurface : Nat) (create : Texture2DArray → Texture2DArray × Bool)
    (t : Texture2DArray) (layers : Nat) (width height : Int) (format : Nat)
    (usage : TextureUsage) : SetSizeOutcome :=
  if width ≤ 0 ∨ height ≤ 0 then
    { texture := t, result := false, createCalls := 0 }
  else if usage = TextureUsage.TEXTURE_DEPTHSTENCIL then
    { texture := t, result := false, createCalls := 0 }
  else
    let t := { t with renderSurface_ := none }
    let t := { t with usage_ := usage }
    let t := if usage = TextureUsage.TEXTURE_RENDERTARGET then
        { t with renderSurface_ := some newSurface, filterMode_ := FILTER_NEAREST }
      else t
    let t := if usage = TextureUsage.TEXTURE_RENDERTARGET then
        { t with subscribed_ := true }
      else { t with subscribed_ := false }
    let t := { t with width_ := width, height_ := height, format_ := format, depth_ := 1 }
    let t := if layers ≠ 0 then { t with layers_ := layers } else t
    let t := { t with layerMemoryUse_ := List.replicate t.layers_ 0 }
    let r := create t
    { texture := r.1, result := r.2, createCalls := 1 }

/-- The members of `Texture3D` read by `SetData_D3D11`. -/
structure Texture3D where
  object_ : Nat
  levels_ : Nat
  usage_ : TextureUsage
deriving DecidableEq, Repr

/-- A mapped subresource as filled in by `ID3D11DeviceContext::Map`. -/
structure MappedSubresource where
  RowPitch : Nat
  DepthPitch : Nat
deriving DecidableEq, Repr

/-- The helpers of the texture base class and of the Direct3D11 device that
`SetData_D3D11` calls: `GetLevelWidth/Height/Depth`, `IsCompressed_D3D11`,
`GetRowDataSize_D3D11`, and the outcome of `Map` (`none` when mapping fails or
yields a null pointer). -/
structure Texture3DEnv where
  levelWidth : Nat → Int
  levelHeight : Nat → Int
  levelDepth : Nat → Int
  isCompressed : Bool
  rowDataSize : Int → Nat
  mapped : Option MappedSubresource

/-- A write performed on the GPU resource: a `memcpy` of `len` bytes from
source offset `src` into the mapped subresource at offset `dst`, or one
`UpdateSubresource` call with its destination box and pitches. -/
inductive GpuWrite where
  | memcpy (dst src len : Nat)
  | updateSubresource (subResource left right top bottom front back rowPitch depthPitch : Nat)
deriving DecidableEq, Repr

/-- The statement `x &= ~3` on an `int`. -/
def alignDown4 (x : Int) : Int := toI32 (Nat.land (toU32 x) 4294967292)

/-- The statement pair `width += 3; width &= 0xfffffffc;` on an `int`. -/
def alignUp4 (w : Int) : Int := toI32 (Nat.land (toU32 (wrapI32 (w + 3))) 4294967292)

/-- The inline helper `D3D11CalcSubresource(mipSlice, arraySlice, mipLevels)`. -/
def D3D11CalcSubresource (mipSlice arraySlice mipLevels : Nat) : Nat :=
  wrapU32 (mipSlice + arraySlice * mipLevels)

/-- The copies issued by the two nested loops of the dynamic-texture path. The
destination is `pData + (page + z) * DepthPitch + (row + y) * RowPitch +
rowStart`: each product is an `unsigned` (32-bit) value, and the three terms
are added to the pointer one after the other, so their sum is not reduced. The
source is `src + row * rowSize`. -/
def dynamicCopies (m : MappedSubresource) (y z height depth : Int)
    (rowStart rowSize : Nat) : List GpuWrite :=
  (List.range depth.toNat).flatMap fun (page : Nat) =>
    (List.range height.toNat).map fun (row : Nat) =>
      GpuWrite.memcpy
        (wrapU32 (toU32 (wrapI32 (Int.ofNat page + z)) * m.DepthPitch)
          + wrapU32 (toU32 (wrapI32 (Int.ofNat row + y)) * m.RowPitch) + rowStart)
        (wrapU32 (row * rowSize))
        rowSize

/-- The function `Texture3D::SetData_D3D11(level, x, y, z, width, height, depth, data)`.
`data` is the source pointer (`0` for null). The result is the returned flag
and the writes issued to the GPU resource. -/
def Texture3D.SetData_D3D11 (env : Texture3DEnv) (t : Texture3D) (level : Nat)
    (x y z width height depth : Int) (data : Nat) : Bool × List GpuWrite :=
  if t.object_ = 0 then (false, [])
  else if data = 0 then (false, [])
  else if level ≥ t.levels_ then (false, [])
  else
    let levelWidth := env.levelWidth level
    let levelHeight := env.levelHeight level
    let levelDepth := env.levelDepth level
    if x < 0 ∨ wrapI32 (x + width) > levelWidth ∨ y < 0 ∨ wrapI32 (y + height) > levelHeight
        ∨ z < 0 ∨ wrapI32 (z + depth) > levelDepth ∨ width ≤ 0 ∨ height ≤ 0 ∨ depth ≤ 0 then
      (false, [])
    else
      let x := if env.isCompressed then alignDown4 x else x
      let y := if env.isCompressed then alignDown4 y else y
      let width := if env.isCompressed then alignUp4 width else width
      let height := if env.isCompressed then alignUp4 height else height
      let rowSize := env.rowDataSize width
      let rowStart := env.rowDataSize x
      let subResource := D3D11CalcSubresource level 0 t.levels_
      if t.usage_ = TextureUsage.TEXTURE_DYNAMIC then
        let height := if env.isCompressed then wrapI32 (height + 3) / 4 else height
        let y := if env.isCompressed then y / 4 else y
        match env.mapped with
        | none => (false, [])
        | some m => (true, dynamicCopies m y z height depth rowStart rowSize)
      else
        let levelHeight := if env.isCompressed then wrapI32 (levelHeight + 3) / 4 else levelHeight
        (true, [GpuWrite.updateSubresource subResource (toU32 x) (toU32 (wrapI32 (x + width)))
          (toU32 y) (toU32 (wrapI32 (y + height))) (toU32 z) (toU32 (wrapI32 (z + depth)))
          rowSize (wrapU32 (toU32 levelHeight * rowSize))])

/-- A static, uncompressed 4x4x4 texture with one mip level. -/
def sampleTexture3D : Texture3D :=
  { object_ := 1, levels_ := 1, usage_ := TextureUsage.TEXTURE_STATIC }

/-- The helper values for `sampleTexture3D`: every level is 4x4x4, rows take
four bytes per texel. -/
def sampleTexture3DEnv : Texture3DEnv :=
  { levelWidth := fun _ => 4, levelHeight := fun _ => 4, levelDepth := fun _ => 4,
    isCompressed := false, rowDataSize := fun w => toU32 (w * 4), mapped := none }

/-! ## Audio mixer (audio.h)

The header `audio.h` declares the class `Audio` with its members and inline
getters; the member functions defined out of line and the class `SoundSource`
are described by the specification only and are modelled from it. Sound types
(`const String& type`) are represented by their `StringHash`, a natural
number; gains, frequencies and playback positions are exact rationals. -/

/-- Modelled from the spec: the class `SoundSource`, a per-voice playback
cursor over a sound buffer with its own gain, frequency, fractional playback
position and sound-type tag. `sound_` is the sound buffer provider: the sample
it yields at a fractional position, with or without linear interpolation (the
provider answers silence past the end of a finished sound). Panning and 3D
attenuation are left out: sources are ambient. -/
structure SoundSource where
  soundType_ : Nat
  gain_ : Rat
  frequency_ : Rat
  position_ : Rat
  sound_ : Rat → Bool → Int

/-- The sound sources of the program, addressed by pointer. -/
abbrev SourceHeap := Nat → SoundSource

/-- The data members of `Audio` (the mutex and the listener are left out).
`masterGain_` is the hash map from sound type to gain, `pausedSoundTypes_` the
hash set of paused types, `soundSources_` the vector of source pointers. -/
structure Audio where
  clipBuffer_ : List Int
  deviceID_ : Nat
  sampleSize_ : Nat
  fragmentSize_ : Nat
  mixRate_ : Int
  interpolation_ : Bool
  stereo_ : Bool
  playing_ : Bool
  masterGain_ : List (Nat × Rat)
  pausedSoundTypes_ : List Nat
  soundSources_ : List Nat
deriving DecidableEq

/-- The mixer as its default member initialisers in `audio.h` leave it: no
device, nothing playing, empty gain table, paused set and source list. -/
def Audio.init : Audio :=
  { clipBuffer_ := [], deviceID_ := 0, sampleSize_ := 0, fragmentSize_ := 0, mixRate_ := 0,
    interpolation_ := false, stereo_ := false, playing_ := false, masterGain_ := [],
    pausedSoundTypes_ := [], soundSources_ := [] }

/-- The getter `Audio::GetSampleSize`. -/
def Audio.GetSampleSize (a : Audio) : Nat := a.sampleSize_

/-- The getter `Audio::GetMixRate`. -/
def Audio.GetMixRate (a : Audio) : Int := a.mixRate_

/-- The getter `Audio::GetInterpolation`. -/
def Audio.GetInterpolation (a : Audio) : Bool := a.interpolation_

/-- The getter `Audio::IsStereo`. -/
def Audio.IsStereo (a : Audio) : Bool := a.stereo_

/-- The getter `Audio::IsPlaying`. -/
def Audio.IsPlaying (a : Audio) : Bool := a.playing_

/-- The getter `Audio::IsInitialized`. -/
def Audio.IsInitialized (a : Audio) : Bool := a.deviceID_ != 0

/-- The getter `Audio::GetSoundSources`. -/
def Audio.GetSoundSources (a : Audio) : List Nat := a.soundSources_

/-- The getter `Audio::HasMasterGain`: `masterGain_.Contains(type)`. -/
def Audio.HasMasterGain (a : Audio) (type : Nat) : Bool :=
  a.masterGain_.any fun e => e.1 == type

/-- The device format handed back by the platform audio layer when a device
is opened; `deviceID = 0` means the device could not be opened. -/
structure DeviceSpec where
  deviceID : Nat
  freq : Int
  stereo : Bool
  sampleSize : Nat
deriving DecidableEq, Repr

/-- Number of interleaved channels of the output. -/
def Audio.channelCount (a : Audio) : Nat := if a.stereo_ then 2 else 1

/-- Modelled from the spec: `Audio::Release` (teardown), which stops, releases
the device handle and frees the accumulation buffer. -/
def Audio.Release (a : Audio) : Audio :=
  { a with playing_ := false, deviceID_ := 0, clipBuffer_ := [] }

/-- Modelled from the spec: `Audio::SetMode`. It validates that buffer length
and mix rate are positive, (re)opens the device through `openDevice` (which may
fall back to another rate or format), computes the fragment size from buffer
length and mix rate, reallocates the accumulation buffer and leaves the device
suspended; it fails when the device cannot be opened. -/
def Audio.SetMode (openDevice : Int → Bool → DeviceSpec) (a : Audio)
    (bufferLengthMSec mixRate : Int) (stereo interpolation : Bool) : Audio × Bool :=
  if bufferLengthMSec ≤ 0 ∨ mixRate ≤ 0 then
    (a, false)
  else
    let a := a.Release
    let d := openDevice mixRate stereo
    if d.deviceID = 0 then
      (a, false)
    else
      let fragmentSize := (d.freq * bufferLengthMSec / 1000).toNat
      let channels := if d.stereo then 2 else 1
      ({ a with deviceID_ := d.deviceID, mixRate_ := d.freq, stereo_ := d.stereo,
                sampleSize_ := d.sampleSize, interpolation_ := interpolation,
                fragmentSize_ := fragmentSize,
                clipBuffer_ := List.replicate (fragmentSize * channels) 0,
                playing_ := false }, true)

/-- Modelled from the spec: `Audio::Play`, which resumes the device stream, is
idempotent when already playing and fails when no device was opened. -/
def Audio.Play (a : Audio) : Audio × Bool :=
  if a.playing_ then (a, true)
  else if a.deviceID_ = 0 then (a, false)
  else ({ a with playing_ := true }, true)

/-- Modelled from the spec: `Audio::Stop`, which suspends the callback and
releases neither the device nor the buffers. -/
def Audio.Stop (a : Audio) : Audio :=
  { a with playing_ := false }

/-- Modelled from the spec: `Audio::SetMasterGain`, an upsert into the
type-to-gain mapping. -/
def Audio.SetMasterGain (a : Audio) (type : Nat) (gain : Rat) : Audio :=
  { a with masterGain_ := (type, gain) :: a.masterGain_.filter fun e => e.1 != type }

/-- Modelled from the spec: `Audio::GetMasterGain`, a `const` member function.
It yields the gain configured for the type, or full gain 1.0 for a type that
was never configured, and hands the mixer back as it found it. -/
def Audio.GetMasterGain (a : Audio) (type : Nat) : Rat × Audio :=
  match a.masterGain_.find? fun e => e.1 == type with
  | some e => (e.2, a)
  | none => (1, a)

/-- Modelled from the spec: `Audio::PauseSoundType`, insertion into the paused
set. -/
def Audio.PauseSoundType (a : Audio) (type : Nat) : Audio :=
  if type ∈ a.pausedSoundTypes_ then a
  else { a with pausedSoundTypes_ := type :: a.pausedSoundTypes_ }

/-- Modelled from the spec: `Audio::ResumeSoundType`, removal from the paused
set. -/
def Audio.ResumeSoundType (a : Audio) (type : Nat) : Audio :=
  { a with pausedSoundTypes_ := a.pausedSoundTypes_.filter fun t => t != type }

/-- Modelled from the spec: `Audio::ResumeAll`, which empties the paused set. -/
def Audio.ResumeAll (a : Audio) : Audio :=
  { a with pausedSoundTypes_ := [] }

/-- Modelled from the spec: `Audio::IsSoundTypePaused`. -/
def Audio.IsSoundTypePaused (a : Audio) (type : Nat) : Bool :=
  decide (type ∈ a.pausedSoundTypes_)

/-- Modelled from the spec: `Audio::AddSoundSource`, an idempotent insert into
the active set. -/
def Audio.AddSoundSource (a : Audio) (soundSource : Nat) : Audio :=
  if soundSource ∈ a.soundSources_ then a
  else { a with soundSources_ := a.soundSources_ ++ [soundSource] }

/-- Modelled from the spec: `Audio::RemoveSoundSource`, a removal that is
silently ignored for a source that is not registered. -/
def Audio.RemoveSoundSource (a : Audio) (soundSource : Nat) : Audio :=
  { a with soundSources_ := a.soundSources_.erase soundSource }

/-- A registration call made by a sound source's lifecycle hooks. -/
inductive SourceCall where
  | add (soundSource : Nat)
  | remove (soundSource : Nat)
deriving DecidableEq, Repr

/-- One registration call applied to the mixer. -/
def Audio.call (a : Audio) : SourceCall → Audio
  | SourceCall.add p => a.AddSoundSource p
  | SourceCall.remove p => a.RemoveSoundSource p

/-- A sequence of registration calls applied in order. -/
def Audio.calls (a : Audio) (cs : List SourceCall) : Audio :=
  cs.foldl Audio.call a

/-! ### The mix callback -/

/-- Largest value of a signed output sample that is `sampleSize` bytes wide
(32767 for 16-bit output). -/
def sampleMax (sampleSize : Nat) : Int := 2 ^ (8 * sampleSize) / 2 - 1

/-- Smallest value of a signed output sample that is `sampleSize` bytes wide
(-32768 for 16-bit output). -/
def sampleMin (sampleSize : Nat) : Int := -(2 ^ (8 * sampleSize) / 2)

/-- Modelled from the spec: the clip step of `Audio::MixOutput`, which brings
an accumulated 32-bit sample into the output sample width with saturation. -/
def clipSample (sampleSize : Nat) (x : Int) : Int :=
  if x > sampleMax sampleSize then sampleMax sampleSize
  else if x < sampleMin sampleSize then sampleMin sampleSize
  else x

/-- The value a modulo (wrap-around) narrowing to `sampleSize` bytes would
give; the clip step is compared with it. -/
def wrapSample (sampleSize : Nat) (x : Int) : Int :=
  (x - sampleMin sampleSize) % 2 ^ (8 * sampleSize) + sampleMin sampleSize

/-- Conversion of a scaled sample to an integer, truncating toward zero. -/
def roundToZero (q : Rat) : Int := Int.tdiv q.num q.den

/-- Modelled from the spec: the gain applied to a source,
`masterGain[source.type] * source.gain`. -/
def Audio.appliedGain (a : Audio) (s : SoundSource) : Rat :=
  (a.GetMasterGain s.soundType_).1 * s.gain_

/-- Modelled from the spec: the fractional position advance per output sample,
the ratio `frequency / mixRate`. -/
def Audio.step (a : Audio) (s : SoundSource) : Rat := s.frequency_ / a.mixRate_

/-- Modelled from the spec: what a source adds to accumulator slot `slot` of
the interleaved buffer: the sample of its sound at the resampled position,
scaled by the applied gain. -/
def Audio.contribution (a : Audio) (s : SoundSource) (slot : Nat) : Int :=
  roundToZero (a.appliedGain s *
    (s.sound_ (s.position_ + ((slot / a.channelCount : Nat) : Rat) * a.step s)
      a.interpolation_ : Int))

/-- Modelled from the spec: the source after one fragment, its playback cursor
moved on by `fragmentSize` output samples. -/
def Audio.advance (a : Audio) (s : SoundSource) : SoundSource :=
  { s with position_ := s.position_ + (a.fragmentSize_ : Rat) * a.step s }

/-- Modelled from the spec: `SoundSource::Mix`, which sums the source's
contribution into the 32-bit accumulation buffer in place and advances the
playback cursor. -/
def SoundSource.Mix (s : SoundSource) (a : Audio) (acc : List Int) : List Int × SoundSource :=
  (List.zipWith (fun x c => wrapI32 (x + c)) acc ((List.range acc.length).map (a.contribution s)),
    a.advance s)

/-- Modelled from the spec: the loop of `Audio::MixOutput` over the active
sources; a source whose sound type is in the paused set is skipped. -/
def Audio.mixSources (a : Audio) : List Nat → List Int × SourceHeap → List Int × SourceHeap
  | [], st => st
  | p :: ps, (acc, heap) =>
    if (heap p).soundType_ ∈ a.pausedSoundTypes_ then
      a.mixSources ps (acc, heap)
    else
      a.mixSources ps (((heap p).Mix a acc).1, Function.update heap p ((heap p).Mix a acc).2)

/-- What one mix callback leaves behind: the mixer, the sound sources and the
clipped block handed to the device. -/
structure MixResult where
  audio : Audio
  sources : SourceHeap
  dest : List Int

/-- Modelled from the spec: `Audio::MixOutput` for one fragment. It zeroes the
accumulation buffer (`fragmentSize * channelCount` accumulators), lets every
active source that is not paused add its block, clips every accumulated sample
to the output sample width and hands the result to the device. -/
def Audio.MixOutput (a : Audio) (heap : SourceHeap) : MixResult :=
  let r := a.mixSources a.soundSources_
    (List.replicate (a.fragmentSize_ * a.channelCount) 0, heap)
  { audio := { a with clipBuffer_ := r.1 },
    sources := r.2,
    dest := r.1.map (clipSample a.sampleSize_) }

/-- The mixer and the sources after `n` consecutive mix callbacks. -/
def mixCallbacks : Nat → Audio × SourceHeap → Audio × SourceHeap
  | 0, w => w
  | n + 1, w => mixCallbacks n ((w.1.MixOutput w.2).audio, (w.1.MixOutput w.2).sources)

/-- A sound source of type 1 with gain 1.0 whose sound is the constant `v`. -/
def constantSource (v : Int) : SoundSource :=
  { soundType_ := 1, gain_ := 1, frequency_ := 44100, position_ := 0, sound_ := fun _ _ => v }

/-- A mono 16-bit mixer at 44100 Hz with a fragment of four samples and the
sources at pointers 10 and 11 registered. -/
def sampleAudio : Audio :=
  { clipBuffer_ := [0, 0, 0, 0], deviceID_ := 2, sampleSize_ := 2, fragmentSize_ := 4,
    mixRate_ := 44100, interpolation_ := true, stereo_ := false, playing_ := true,
    masterGain_ := [], pausedSoundTypes_ := [], soundSources_ := [10, 11] }

/-- The call sequence `Play(); Stop(); Play()`: the mixer after it and the
flag returned by the last `Play()`. -/
def Audio.playStopPlay (a : Audio) : Audio × Bool :=
  a.Play.1.Stop.Play

/-- A device layer that grants every request as 16-bit output on device 1. -/
def sampleDevice : Int → Bool → DeviceSpec :=
  fun rate stereo => { deviceID := 1, freq := rate, stereo := stereo, sampleSize := 2 }

/-- The mixer and the sources after `PauseSoundType(type)` followed by `n`
mix callbacks. -/
def pausedRun (a : Audio) (heap : SourceHeap) (type n : Nat) : Audio × SourceHeap :=
  mixCallbacks n (a.PauseSoundType type, heap)

/-- A dynamic, uncompressed 2x2x2 texture with one mip level. -/
def sampleDynamicTexture3D : Texture3D :=
  { object_ := 1, levels_ := 1, usage_ := TextureUsage.TEXTURE_DYNAMIC }

/-- The helper values for `sampleDynamicTexture3D`: every level is 2x2x2, rows
take four bytes per texel, and mapping succeeds with a row pitch of 16 and a
depth pitch of 64 bytes. -/
def sampleDynamicTexture3DEnv : Texture3DEnv :=
  { levelWidth := fun _ => 2, levelHeight := fun _ => 2, levelDepth := fun _ => 2,
    isCompressed := false, rowDataSize := fun w => toU32 (w * 4),
    mapped := some { RowPitch := 16, DepthPitch := 64 } }

/-- The helper values of a block-compressed 8x8x8 dynamic texture: rows take 8
bytes per block of four texels, and mapping succeeds with a row pitch of 16 and
a depth pitch of 32 bytes. -/
def sampleCompressedDynamicEnv : Texture3DEnv :=
  { levelWidth := fun _ => 8, levelHeight := fun _ => 8, levelDepth := fun _ => 8,
    isCompressed := true, rowDataSize := fun w => toU32 ((w + 3) / 4 * 8),
    mapped := some { RowPitch := 16, DepthPitch := 32 } }

/-- The helper values of a block-compressed 8x8x8 texture: rows take 8 bytes
per block of four texels. -/
def sampleCompressedEnv : Texture3DEnv :=
  { levelWidth := fun _ => 8, levelHeight := fun _ => 8, levelDepth := fun _ => 8,
    isCompressed := true, rowDataSize := fun w => toU32 ((w + 3) / 4 * 8), mapped := none }

/-! ## Log (log.cpp)

The log levels are integers. The prefix table `logLevelPrefixes` places
`LOG_TRACE` .. `LOG_ERROR` at indices 0 .. 4 and ends with a null entry at
`LOG_NONE`; `LOG_RAW` is the level below `LOG_TRACE`. The file-scope statics
`logInstance` and `threadErrorDisplayed`, the standard streams and the events
sent are gathered in `LogWorld`. -/

/-- The level `LOG_RAW` of the log header. -/
def LOG_RAW : Int := -1

/-- The level `LOG_TRACE` of the log header. -/
def LOG_TRACE : Int := 0

/-- The level `LOG_DEBUG` of the log header. -/
def LOG_DEBUG : Int := 1

/-- The level `LOG_INFO` of the log header. -/
def LOG_INFO : Int := 2

/-- The level `LOG_WARNING` of the log header. -/
def LOG_WARNING : Int := 3

/-- The level `LOG_ERROR` of the log header. -/
def LOG_ERROR : Int := 4

/-- The level `LOG_NONE` of the log header. -/
def LOG_NONE : Int := 5

/-- The table `logLevelPrefixes`; `none` is its terminating null pointer. -/
def logLevelPrefixes : List (Option String) :=
  [some "TRACE", some "DEBUG", some "INFO", some "WARNING", some "ERROR", none]

/-- The expression `logLevelPrefixes[level]` converted to a string. -/
def levelPrefix (level : Int) : String :=
  (logLevelPrefixes.getD level.toNat none).getD ""

/-- The record `StoredLogMessage` kept for messages logged off the main thread. -/
structure StoredLogMessage where
  message_ : String
  level_ : Int
  error_ : Bool
deriving DecidableEq, Repr

/-- The members of `Log`. `logFile_` is `none` for a null file pointer and
otherwise holds what was written to the file so far. -/
structure Log where
  level_ : Int
  timeStamp_ : Bool
  inWrite_ : Bool
  quiet_ : Bool
  lastMessage_ : String
  logFile_ : Option (List String)
  threadMessages_ : List StoredLogMessage
deriving DecidableEq, Repr

/-- An `E_LOGMESSAGE` event with its `P_MESSAGE` and `P_LEVEL` parameters. -/
structure LogEvent where
  message : String
  level : Int
deriving DecidableEq, Repr

/-- The statics of log.cpp and what the log emitted: `printed` lists the texts
written to the standard streams (the flag marks the error stream), `events` the
events sent. -/
structure LogWorld where
  logInstance : Option Log
  threadErrorDisplayed : Bool
  printed : List (String × Bool)
  events : List LogEvent
deriving DecidableEq, Repr

/-- What the log reads from its surroundings: `Thread::IsMainThread()` and
`Time::GetTimeStamp()`. -/
structure LogEnv where
  isMainThread : Bool
  timeStamp : String
deriving DecidableEq, Repr

/-- The statement `logInstance->threadMessages_.Push(stored)` under the guard
`if (logInstance)`. -/
def LogWorld.store (w : LogWorld) (stored : StoredLogMessage) : LogWorld :=
  match w.logInstance with
  | some l => { w with logInstance := some { l with threadMessages_ := l.threadMessages_ ++ [stored] } }
  | none => w

/-- The function `Log::WriteRaw(message, error)`. -/
def Log.WriteRaw (env : LogEnv) (message : String) (error : Bool) (w : LogWorld) : LogWorld :=
  if !env.isMainThread then
    w.store { message_ := message, level_ := LOG_RAW, error_ := error }
  else
    match w.logInstance with
    | none => w
    | some l =>
      if l.inWrite_ then w
      else
        let l := { l with lastMessage_ := message }
        let printed :=
          if l.quiet_ then (if error then w.printed ++ [(message, true)] else w.printed)
          else w.printed ++ [(message, error)]
        let l := match l.logFile_ with
          | some written => { l with logFile_ := some (written ++ [message]) }
          | none => l
        let l := { l with inWrite_ := true }
        let events := w.events ++
          [{ message := message, level := if error then LOG_ERROR else LOG_INFO }]
        let l := { l with inWrite_ := false }
        { w with logInstance := some l, printed := printed, events := events }

/-- The function `Log::Write(level, message)`. -/
def Log.Write (env : LogEnv) (level : Int) (message : String) (w : LogWorld) : LogWorld :=
  if level = LOG_RAW then
    Log.WriteRaw env message false w
  else if level < LOG_TRACE ∨ level ≥ LOG_NONE then
    w
  else if !env.isMainThread then
    w.store { message_ := message, level_ := level, error_ := false }
  else
    match w.logInstance with
    | none => w
    | some l =>
      if l.level_ > level ∨ l.inWrite_ then w
      else
        let formattedMessage := levelPrefix level
        let formattedMessage := formattedMessage ++ (": " ++ message)
        let l := { l with lastMessage_ := message }
        let formattedMessage :=
          if l.timeStamp_ then "[" ++ env.timeStamp ++ "] " ++ formattedMessage
          else formattedMessage
        let printed :=
          if l.quiet_ then
            (if level = LOG_ERROR then w.printed ++ [(formattedMessage ++ "\n", true)]
             else w.printed)
          else w.printed ++ [(formattedMessage ++ "\n", decide (level = LOG_ERROR))]
        let l := match l.logFile_ with
          | some written => { l with logFile_ := some (written ++ [formattedMessage ++ "\n"]) }
          | none => l
        let l := { l with inWrite_ := true }
        let events := w.events ++ [{ message := formattedMessage, level := level }]
        let l := { l with inWrite_ := false }
        { w with logInstance := some l, printed := printed, events := events }

/-- The function `Log::WriteFormat(level, format, ...)`; `message` is the text
the format and its arguments produce. -/
def Log.WriteFormat (env : LogEnv) (level : Int) (message : String) (w : LogWorld) : LogWorld :=
  match w.logInstance with
  | none => w
  | some l =>
    if level ≠ LOG_RAW ∧ (level < LOG_TRACE ∨ level ≥ LOG_NONE ∨ l.level_ > level) then w
    else Log.Write env level message w

/-- The function `Log::SetLevel(level)`, called on the log instance.
`DV_LOGERRORF` is `Log::WriteFormat` at `LOG_ERROR`. -/
def Log.SetLevel (env : LogEnv) (level : Int) (w : LogWorld) : LogWorld :=
  match w.logInstance with
  | none => w
  | some l =>
    if level < LOG_TRACE ∨ level > LOG_NONE then
      Log.WriteFormat env LOG_ERROR
        ("Attempted to set erroneous log level " ++ toString level) w
    else
      { w with logInstance := some { l with level_ := level } }

/-- The body of the loop in `Log::HandleEndFrame` for the front message:
`Write` for an ordinary level, `WriteRaw` for `LOG_RAW`. -/
def Log.deliver (env : LogEnv) (stored : StoredLogMessage) (w : LogWorld) : LogWorld :=
  if stored.level_ ≠ LOG_RAW then Log.Write env stored.level_ stored.message_ w
  else Log.WriteRaw env stored.message_ stored.error_ w

/-- The statement `threadMessages_.PopFront()`. -/
def LogWorld.popFront (w : LogWorld) : LogWorld :=
  match w.logInstance with
  | some l => { w with logInstance := some { l with threadMessages_ := l.threadMessages_.tail } }
  | none => w

/-- The `while (!threadMessages_.Empty())` loop of `Log::HandleEndFrame`, run
for at most `fuel` iterations. -/
def Log.processMessages (env : LogEnv) : Nat → LogWorld → LogWorld
  | 0, w => w
  | fuel + 1, w =>
    match w.logInstance with
    | none => w
    | some l =>
      match l.threadMessages_ with
      | [] => w
      | stored :: _ => Log.processMessages env fuel (Log.deliver env stored w).popFront

/-- The function `Log::HandleEndFrame`, called on the log instance; the loop is
given `fuel` iterations. -/
def Log.HandleEndFrame (env : LogEnv) (fuel : Nat) (w : LogWorld) : LogWorld :=
  if !env.isMainThread then
    if !w.threadErrorDisplayed then
      { w with
        printed := w.printed ++
          [("Thread::mainThreadID is not setup correctly! Threaded log handling disabled\n", true)],
        threadErrorDisplayed := true }
    else w
  else
    Log.processMessages env fuel w

/-- The stored-message queue of the log instance (empty without instance). -/
def LogWorld.queue (w : LogWorld) : List StoredLogMessage :=
  match w.logInstance with
  | some l => l.threadMessages_
  | none => []

/-- The world with the stored-message queue of the log instance replaced. -/
def LogWorld.setQueue (w : LogWorld) (q : List StoredLogMessage) : LogWorld :=
  match w.logInstance with
  | some l => { w with logInstance := some { l with threadMessages_ := q } }
  | none => w

/-- The current `level_` of the log instance. -/
def LogWorld.level (w : LogWorld) : Option Int :=
  w.logInstance.map fun l => l.level_

/-- A log as `Log::Log()` leaves it in a release build, with its instance
registered, nothing printed and no event sent. -/
def sampleLogWorld : LogWorld :=
  { logInstance := some { level_ := LOG_INFO, timeStamp_ := true, inWrite_ := false,
                          quiet_ := false, lastMessage_ := "", logFile_ := none,
                          threadMessages_ := [] },
    threadErrorDisplayed := false, printed := [], events := [] }

/-! ## Hash maps

A `HashMap<K, V>` is kept as the list of its entries in iteration order, with
at most one entry per key. -/

/-- The lookup `map.Find(key)`: the value stored under the key, if any. -/
def hashFind {κ β : Type} [DecidableEq κ] (m : List (κ × β)) (key : κ) : Option β :=
  (m.find? fun e => decide (e.1 = key)).map fun e => e.2

/-- The removal `map.Erase(key)`. -/
def hashErase {κ β : Type} [DecidableEq κ] (m : List (κ × β)) (key : κ) : List (κ × β) :=
  m.filter fun e => decide (e.1 ≠ key)

/-- The assignment `map[key] = value`: the value of an existing entry is
replaced, a new entry is added otherwise. -/
def hashSet {κ β : Type} [DecidableEq κ] (m : List (κ × β)) (key : κ) (value : β) :
    List (κ × β) :=
  if m.any (fun e => decide (e.1 = key)) then
    m.map fun e => if e.1 = key then (key, value) else e
  else
    m ++ [(key, value)]

/-! ## Font (font.cpp) -/

/-- The enumeration `FontType`. -/
inductive FontType where
  | FONT_NONE
  | FONT_FREETYPE
  | FONT_BITMAP
deriving DecidableEq, Repr

/-- The constant `MIN_POINT_SIZE`. -/
def MIN_POINT_SIZE : Rat := 1

/-- The constant `MAX_POINT_SIZE`. -/
def MAX_POINT_SIZE : Rat := 96

/-- The helper `FloatToFixed`: conversion to 26.6 fixed point,
`(int)(value * 64)`. Point sizes are exact rationals; the conversion to `int`
truncates toward zero. -/
def FloatToFixed (value : Rat) : Int := roundToZero (value * 64)

/-- The math helper `Clamp(value, min, max)`. -/
def Clamp (value min max : Rat) : Rat :=
  if value < min then min else if value > max then max else value

/-- The members of `Font` used by `GetFace`: the font type and the map from
fixed-point size to font face (a face is identified by its address). -/
structure Font where
  fontType_ : FontType
  faces_ : List (Int × Nat)
deriving DecidableEq, Repr

/-- What `Font::GetFace` reads from its surroundings: whether the graphics
subsystem exists, `FontFace::IsDataLost()` of a face, and the outcome of
creating and loading a new FreeType or bitmap face for a point size (the
address of the new face, or `none` when `Load` fails). -/
structure FontEnv where
  graphics : Bool
  isDataLost : Nat → Bool
  loadFreeType : Rat → Option Nat
  loadBitmap : Rat → Option Nat

/-- The function `Font::GetFaceFreeType`. -/
def Font.GetFaceFreeType (env : FontEnv) (f : Font) (pointSize : Rat) : Font × Option Nat :=
  match env.loadFreeType pointSize with
  | none => (f, none)
  | some newFace =>
    ({ f with faces_ := hashSet f.faces_ (FloatToFixed pointSize) newFace }, some newFace)

/-- The function `Font::GetFaceBitmap`. -/
def Font.GetFaceBitmap (env : FontEnv) (f : Font) (pointSize : Rat) : Font × Option Nat :=
  match env.loadBitmap pointSize with
  | none => (f, none)
  | some newFace =>
    ({ f with faces_ := hashSet f.faces_ (FloatToFixed pointSize) newFace }, some newFace)

/-- The `switch (fontType_)` at the end of `Font::GetFace`. -/
def Font.loadFace (env : FontEnv) (f : Font) (pointSize : Rat) : Font × Option Nat :=
  match f.fontType_ with
  | FontType.FONT_FREETYPE => f.GetFaceFreeType env pointSize
  | FontType.FONT_BITMAP => f.GetFaceBitmap env pointSize
  | FontType.FONT_NONE => (f, none)

/-- The function `Font::GetFace(pointSize)`: the font afterwards and the
returned face (`none` for a null pointer). -/
def Font.GetFace (env : FontEnv) (f : Font) (pointSize : Rat) : Font × Option Nat :=
  if !env.graphics then
    (f, none)
  else
    let pointSize :=
      if f.fontType_ = FontType.FONT_BITMAP then 0
      else Clamp pointSize MIN_POINT_SIZE MAX_POINT_SIZE
    let key := FloatToFixed pointSize
    match hashFind f.faces_ key with
    | some face =>
      if !env.isDataLost face then
        (f, some face)
      else
        Font.loadFace env { f with faces_ := hashErase f.faces_ key } pointSize
    | none => Font.loadFace env f pointSize

/-- A bitmap font without loaded faces. -/
def sampleFont : Font := { fontType_ := FontType.FONT_BITMAP, faces_ := [] }

/-- Surroundings in which graphics exist, no face has lost its data and every
load succeeds with the face at address 40. -/
def sampleFontEnv : FontEnv :=
  { graphics := true, isDataLost := fun _ => false,
    loadFreeType := fun _ => some 40, loadBitmap := fun _ => some 40 }

/-! ## ShaderVariation (d3d11_shader_variation.cpp)

The arrays `useTextureUnits_` and `constantBufferSizes_` are lists whose lengths
are the constants `MAX_TEXTURE_UNITS` and `MAX_SHADER_PARAMETER_GROUPS`. -/

/-- The enumeration `ShaderType`. -/
inductive ShaderType where
  | VS
  | PS
deriving DecidableEq, Repr

/-- The numeric value of a `ShaderType`. -/
def ShaderType.code : ShaderType → Nat
  | ShaderType.VS => 0
  | ShaderType.PS => 1

/-- The record `ShaderParameter`, in the order of the aggregate initialiser
`ShaderParameter{type, name, offset, size, buffer}`. -/
structure ShaderParameter where
  type_ : ShaderType
  name_ : String
  offset_ : Nat
  size_ : Nat
  buffer_ : Nat
deriving DecidableEq, Repr

/-- The members of `ShaderVariation` used by the Direct3D11 functions.
`parameters_` is the hash map from `StringHash` to parameter, `byteCode_` the
byte vector, `elementHash_` a 64-bit value. -/
structure ShaderVariation where
  graphics_ : Bool
  object_ : Nat
  type_ : ShaderType
  compilerOutput_ : String
  elementHash_ : Nat
  parameters_ : List (Nat × ShaderParameter)
  useTextureUnits_ : List Bool
  constantBufferSizes_ : List Nat
  byteCode_ : List Nat
deriving DecidableEq, Repr

/-- The function `ShaderVariation::Release_D3D11` (the clean-up calls into the
graphics subsystem are left out). -/
def ShaderVariation.Release_D3D11 (s : ShaderVariation) : ShaderVariation :=
  if s.object_ ≠ 0 ∧ !s.graphics_ then
    s
  else
    { s with object_ := 0, compilerOutput_ := "",
             useTextureUnits_ := s.useTextureUnits_.map fun _ => false,
             constantBufferSizes_ := s.constantBufferSizes_.map fun _ => 0,
             parameters_ := [], byteCode_ := [], elementHash_ := 0 }

/-- The expression `offset_ + size_` of a parameter, an `unsigned` sum. -/
def ShaderParameter.paramEnd (p : ShaderParameter) : Nat := wrapU32 (p.offset_ + p.size_)

/-- The body of the second loop of `CalculateConstantBufferSizes_D3D11` for one
map entry. -/
def constantBufferStep (sizes : List Nat) (e : Nat × ShaderParameter) : List Nat :=
  if e.2.buffer_ < sizes.length then
    if e.2.paramEnd > sizes.getD e.2.buffer_ 0 then sizes.set e.2.buffer_ e.2.paramEnd
    else sizes
  else sizes

/-- The function `ShaderVariation::CalculateConstantBufferSizes_D3D11`. -/
def ShaderVariation.CalculateConstantBufferSizes_D3D11 (s : ShaderVariation) : ShaderVariation :=
  { s with constantBufferSizes_ :=
      s.parameters_.foldl constantBufferStep (s.constantBufferSizes_.map fun _ => 0) }

/-- The largest `offset_ + size_` among the parameters of buffer `g`, starting
from `init`; with `init = 0` this is the maximum the specification speaks of
(0 when the buffer has no parameter). -/
def maxParamEnd (init : Nat) (ps : List (Nat × ShaderParameter)) (g : Nat) : Nat :=
  (ps.filter fun e => decide (e.2.buffer_ = g)).foldl (fun m e => max m e.2.paramEnd) init

/-! ### The bytecode cache file

The engine's `File` serialisation is kept abstract: a file is the sequence of
items written to it, and a read yields the item written at that place. A read
that meets another kind of item, or the end of the file, yields zero (or the
empty string) and consumes nothing. -/

/-- One item written to a file by `WriteFileID`, `WriteU8`, `WriteI16`,
`WriteU32`, `WriteString` or `Write`. -/
inductive FileItem where
  | fileID (id : String)
  | u8 (n : Nat)
  | u16 (n : Nat)
  | u32 (n : Nat)
  | str (s : String)
  | raw (bytes : List Nat)
deriving DecidableEq, Repr

/-- The read `file->ReadFileID()`. -/
def readFileID : List FileItem → String × List FileItem
  | FileItem.fileID id :: rest => (id, rest)
  | f => ("", f)

/-- The read `file->ReadU8()`. -/
def readU8 : List FileItem → Nat × List FileItem
  | FileItem.u8 n :: rest => (n, rest)
  | f => (0, f)

/-- The read `file->ReadU16()`. -/
def readU16 : List FileItem → Nat × List FileItem
  | FileItem.u16 n :: rest => (n, rest)
  | f => (0, f)

/-- The read `file->ReadU32()`. -/
def readU32 : List FileItem → Nat × List FileItem
  | FileItem.u32 n :: rest => (n, rest)
  | f => (0, f)

/-- The read `file->ReadString()`. -/
def readString : List FileItem → String × List FileItem
  | FileItem.str s :: rest => (s, rest)
  | f => ("", f)

/-- The read `file->Read(dest, size)` into a buffer of `size` zero bytes. -/
def readRaw (size : Nat) : List FileItem → List Nat × List FileItem
  | FileItem.raw bytes :: rest => (bytes.take size ++ List.replicate (size - bytes.length) 0, rest)
  | f => (List.replicate size 0, f)

/-- The items `SaveByteCode_D3D11` writes for the parameters, in the iteration
order of the map. -/
def writeParameters (ps : List (Nat × ShaderParameter)) : List FileItem :=
  ps.flatMap fun e =>
    [FileItem.str e.2.name_, FileItem.u8 (e.2.buffer_ % 256), FileItem.u32 (wrapU32 e.2.offset_),
     FileItem.u32 (wrapU32 e.2.size_)]

/-- The indices of the texture units in use, in ascending order. -/
def usedTextureUnits (units : List Bool) : List Nat :=
  (List.range units.length).filter fun i => units.getD i false

/-- The items `SaveByteCode_D3D11` writes for the texture units in use;
`unitName` is `Graphics::GetTextureUnitName`. -/
def writeTextureUnits (unitName : Nat → String) (units : List Bool) : List FileItem :=
  (usedTextureUnits units).flatMap fun i => [FileItem.str (unitName i), FileItem.u8 (i % 256)]

/-- The function `ShaderVariation::SaveByteCode_D3D11`: the content of the file
written, or `none` when the function returns before writing (`writable` is
false when the file name cannot be resolved or the file cannot be opened). -/
def ShaderVariation.SaveByteCode_D3D11 (unitName : Nat → String) (writable : Bool)
    (s : ShaderVariation) : Option (List FileItem) :=
  if !writable then none
  else
    some ([FileItem.fileID "USHD", FileItem.u16 (s.type_.code % 65536), FileItem.u16 4,
           FileItem.u32 (wrapU32 (s.elementHash_ / 4294967296)),
           FileItem.u32 (wrapU32 s.parameters_.length)]
      ++ writeParameters s.parameters_
      ++ [FileItem.u32 (wrapU32 (usedTextureUnits s.useTextureUnits_).length)]
      ++ writeTextureUnits unitName s.useTextureUnits_
      ++ [FileItem.u32 (wrapU32 s.byteCode_.length)]
      ++ (if s.byteCode_.length ≠ 0 then [FileItem.raw s.byteCode_] else []))

/-- What `LoadByteCode_D3D11` learns from the resource cache and the file
system: whether the file exists, the time stamp of the shader source, the
modification time of the cached file, and the file (`none` for a null file
pointer). -/
structure CacheFile where
  found : Bool
  sourceTimeStamp : Nat
  lastModifiedTime : Nat
  file : Option (List FileItem)
deriving DecidableEq, Repr

/-- The first loop of `LoadByteCode_D3D11`: `numParameters` parameters are read
and assigned into the map under `StringHash(name)`. -/
def readParameters (stringHash : String → Nat) (type : ShaderType) :
    Nat → List (Nat × ShaderParameter) → List FileItem → List (Nat × ShaderParameter) × List FileItem
  | 0, ps, f => (ps, f)
  | n + 1, ps, f =>
    readParameters stringHash type n
      (hashSet ps (stringHash (readString f).1)
        { type_ := type, name_ := (readString f).1,
          offset_ := (readU32 (readU8 (readString f).2).2).1,
          size_ := (readU32 (readU32 (readU8 (readString f).2).2).2).1,
          buffer_ := (readU8 (readString f).2).1 })
      (readU32 (readU32 (readU8 (readString f).2).2).2).2

/-- The second loop of `LoadByteCode_D3D11`: `numTextureUnits` unit names and
registers are read and the registers below `MAX_TEXTURE_UNITS` marked used. -/
def readTextureUnits : Nat → List Bool → List FileItem → List Bool × List FileItem
  | 0, units, f => (units, f)
  | n + 1, units, f =>
    readTextureUnits n
      (if (readU8 (readString f).2).1 < units.length
        then units.set (readU8 (readString f).2).1 true else units)
      (readU8 (readString f).2).2

/-- The function `ShaderVariation::LoadByteCode_D3D11`; `stringHash` is the
`StringHash` of a name. -/
def ShaderVariation.LoadByteCode_D3D11 (stringHash : String → Nat) (cache : CacheFile)
    (s : ShaderVariation) : ShaderVariation × Bool :=
  if !cache.found then (s, false)
  else if cache.sourceTimeStamp ≠ 0 ∧ cache.lastModifiedTime < cache.sourceTimeStamp then
    (s, false)
  else
    match cache.file with
    | none => (s, false)
    | some f =>
      if (readFileID f).1 ≠ "USHD" then (s, false)
      else
        let f := (readU16 (readU16 (readFileID f).2).2).2
        let s := { s with elementHash_ := (readU32 f).1 * 4294967296 % 18446744073709551616 }
        let f := (readU32 f).2
        let ps := readParameters stringHash s.type_ (readU32 f).1 s.parameters_ (readU32 f).2
        let s := { s with parameters_ := ps.1 }
        let us := readTextureUnits (readU32 ps.2).1 s.useTextureUnits_ (readU32 ps.2).2
        let s := { s with useTextureUnits_ := us.1 }
        let byteCodeSize := (readU32 us.2).1
        if byteCodeSize ≠ 0 then
          (ShaderVariation.CalculateConstantBufferSizes_D3D11
            { s with byteCode_ := (readRaw byteCodeSize (readU32 us.2).2).1 }, true)
        else
          (s, false)

/-- A released vertex-shader variation with 16 texture units and 7 parameter
groups. -/
def sampleReleasedVariation : ShaderVariation :=
  { graphics_ := true, object_ := 0, type_ := ShaderType.VS, compilerOutput_ := "",
    elementHash_ := 0, parameters_ := [], useTextureUnits_ := List.replicate 16 false,
    constantBufferSizes_ := List.replicate 7 0, byteCode_ := [] }

/-- A stand-in for `StringHash`: the length of the name. -/
def sampleStringHash (name : String) : Nat := name.length

/-- A cache file with a valid header, one parameter, one texture unit and
zero-length bytecode. -/
def sampleTruncatedCacheFile : CacheFile :=
  { found := true, sourceTimeStamp := 0, lastModifiedTime := 0,
    file := some [FileItem.fileID "USHD", FileItem.u16 0, FileItem.u16 4, FileItem.u32 9,
                  FileItem.u32 1, FileItem.str "MatDiffColor", FileItem.u8 4, FileItem.u32 0,
                  FileItem.u32 16, FileItem.u32 1, FileItem.str "DiffMap", FileItem.u8 0,
                  FileItem.u32 0] }

/-- The value ranges the C++ types give the members of a variation: a 64-bit
element hash, 32-bit offsets, sizes and container sizes, one map entry per
key, and at most 256 texture units. -/
def ShaderVariation.WellFormed (s : ShaderVariation) : Prop :=
  s.elementHash_ < 18446744073709551616
    ∧ s.parameters_.length < 4294967296
    ∧ s.byteCode_.length < 4294967296
    ∧ (∀ e ∈ s.parameters_, e.2.offset_ < 4294967296 ∧ e.2.size_ < 4294967296)
    ∧ (s.parameters_.map Prod.fst).Nodup
    ∧ s.useTextureUnits_.length ≤ 256

instance (s : ShaderVariation) : Decidable s.WellFormed := by
  unfold ShaderVariation.WellFormed
  exact inferInstance

/-- The state `Release_D3D11` leaves behind: no parameters, no bytecode, no
texture unit in use. -/
def ShaderVariation.IsReleased (t : ShaderVariation) : Prop :=
  t.parameters_ = [] ∧ t.byteCode_ = [] ∧ t.elementHash_ = 0
    ∧ t.useTextureUnits_ = t.useTextureUnits_.map (fun _ => false)
    ∧ t.constantBufferSizes_ = t.constantBufferSizes_.map (fun _ => 0)

instance (t : ShaderVariation) : Decidable t.IsReleased := by
  unfold ShaderVariation.IsReleased
  exact inferInstance

/-- A map entry as the cache file keeps it: key, name, buffer, offset, size. -/
def parameterRecord (e : Nat × ShaderParameter) : Nat × String × Nat × Nat × Nat :=
  (e.1, e.2.name_, e.2.buffer_, e.2.offset_, e.2.size_)

/-- A map entry with the type of its parameter replaced. -/
def retagParameter (type : ShaderType) (e : Nat × ShaderParameter) : Nat × ShaderParameter :=
  (e.1, { e.2 with type_ := type })

/-- A compiled pixel-shader variation: two parameters in group 4, texture
units 0 and 2 in use, four bytes of bytecode. -/
def sampleCompiledVariation : ShaderVariation :=
  { graphics_ := true, object_ := 5, type_ := ShaderType.PS, compilerOutput_ := "",
    elementHash_ := 0,
    parameters_ := [(12, { type_ := ShaderType.PS, name_ := "MatDiffColor", offset_ := 0,
                           size_ := 16, buffer_ := 4 }),
                    (16, { type_ := ShaderType.PS, name_ := "MatEmissiveColor", offset_ := 32,
                           size_ := 16, buffer_ := 4 })],
    useTextureUnits_ := [true, false, true, false],
    constantBufferSizes_ := [0, 0, 0, 0, 48, 0, 0],
    byteCode_ := [68, 88, 66, 67] }

/-- The cache entry holding the file written for `sampleCompiledVariation`,
newer than the shader source; texture units are named by their index. -/
def sampleSavedCacheFile : CacheFile :=
  { found := true, sourceTimeStamp := 100, lastModifiedTime := 200,
    file := sampleCompiledVariation.SaveByteCode_D3D11 (fun i => toString i) true }

/-- The sample variation with a sizes array that was not computed from its
parameters. -/
def sampleStaleVariation : ShaderVariation :=
  { sampleCompiledVariation with constantBufferSizes_ := [9, 9, 9, 9, 9, 9, 9] }

/-- The cache entry holding the file written for `sampleStaleVariation`. -/
def sampleStaleCacheFile : CacheFile :=
  { found := true, sourceTimeStamp := 100, lastModifiedTime := 200,
    file := sampleStaleVariation.SaveByteCode_D3D11 (fun _ => "Unit") true }

/-- A quiet log without time stamps that lets every level through and writes
to a log file. -/
def sampleQuietLogWorld : LogWorld :=
  { logInstance := some { level_ := LOG_TRACE, timeStamp_ := false, inWrite_ := false,
                          quiet_ := true, lastMessage_ := "", logFile_ := some [],
                          threadMessages_ := [] },
    threadErrorDisplayed := false, printed := [], events := [] }

/-- The sample log with two messages stored by other threads: a warning and a
raw error text. -/
def sampleQueuedLogWorld : LogWorld :=
  { logInstance := some { level_ := LOG_INFO, timeStamp_ := true, inWrite_ := false,
                          quiet_ := false, lastMessage_ := "", logFile_ := none,
                          threadMessages_ :=
                            [{ message_ := "a", level_ := LOG_WARNING, error_ := false },
                             { message_ := "b", level_ := LOG_RAW, error_ := true }] },
    threadErrorDisplayed := false, printed := [], events := [] }

/-- A sound source of type 2 with gain 1.0 whose sound is the constant `v`. -/
def musicSource (v : Int) : SoundSource :=
  { soundType_ := 2, gain_ := 1, frequency_ := 44100, position_ := 0, sound_ := fun _ _ => v }

/-- The sample mixer with a third source registered at pointer 12, sound type 2
paused and the master gain of type 2 set to one half. -/
def sampleBusyAudio : Audio :=
  ((sampleAudio.AddSoundSource 12).PauseSoundType 2).SetMasterGain 2 (1 / 2)

/-- Sources for `sampleBusyAudio`: the source at pointer 12 is of type 2 and
plays the constant 5000, every other source is of type 1 and plays the
constant 20000. -/
def sampleBusyHeap : SourceHeap :=
  fun p => if p = 12 then musicSource 5000 else constantSource 20000

/-! ## Theorems -/

/-- C1: a zero-size request fails on both back ends: for every prior
constant-buffer state `SetSize_D3D11(0)` and `SetSize_OGL(0)` return false. -/
theorem setSize_zero_returns_false (createBuffer : Nat → Option Nat) (genBuffer : Nat)
    (cb : ConstantBuffer) :
    (cb.SetSize_D3D11 createBuffer 0).2 = false ∧ (cb.SetSize_OGL genBuffer 0).2 = false := by
  constructor <;> simp [ConstantBuffer.SetSize_D3D11, ConstantBuffer.SetSize_OGL]

/-- On OpenGL a zero-size request leaves the constant buffer untouched. -/
theorem setSize_OGL_zero_unchanged (genBuffer : Nat) (cb : ConstantBuffer) :
    (cb.SetSize_OGL genBuffer 0).1 = cb := by
  simp [ConstantBuffer.SetSize_OGL]

/-- On Direct3D11 a zero-size request ends in the released state, whatever the
buffer held before. -/
theorem setSize_D3D11_zero_releases (createBuffer : Nat → Option Nat) (cb : ConstantBuffer) :
    (cb.SetSize_D3D11 createBuffer 0).1 = cb.Release_D3D11 := by
  simp [ConstantBuffer.SetSize_D3D11]

/-- C2: on Direct3D11 a zero-size request is not a no-op. Starting from a
buffer of 16 bytes with GPU object 7, `SetSize_D3D11(0)` returns false but
leaves `size_ = 0`, no shadow data and no GPU object, while `SetSize_OGL(0)`
on the same state changes nothing. -/
theorem setSize_D3D11_zero_drops_buffer :
    (sampleConstantBuffer.SetSize_D3D11 (fun _ => some 9) 0)
        = ({ graphics_ := true, object_ := 0, shadowData_ := none, size_ := 0,
             dirty_ := true }, false)
      ∧ (sampleConstantBuffer.SetSize_D3D11 (fun _ => some 9) 0).1 ≠ sampleConstantBuffer
      ∧ (sampleConstantBuffer.SetSize_OGL 9 0).1 = sampleConstantBuffer := by
  decide

/-- C9: `Texture2DArray::SetSize` returns false whenever `width <= 0`,
`height <= 0` or the usage is `TEXTURE_DEPTHSTENCIL`; the texture (render
surface, usage, filter mode, width, height, format, depth, layers and
per-layer memory use) is then exactly as before and `Create()` is not run. -/
theorem texture2DArray_setSize_rejects (newSurface : Nat)
    (create : Texture2DArray → Texture2DArray × Bool) (t : Texture2DArray) (layers : Nat)
    (width height : Int) (format : Nat) (usage : TextureUsage)
    (h : width ≤ 0 ∨ height ≤ 0 ∨ usage = TextureUsage.TEXTURE_DEPTHSTENCIL) :
    (t.SetSize newSurface create layers width height format usage).result = false
      ∧ (t.SetSize newSurface create layers width height format usage).texture = t
      ∧ (t.SetSize newSurface create layers width height format usage).createCalls = 0 := by
  unfold Texture2DArray.SetSize
  by_cases hwh : width ≤ 0 ∨ height ≤ 0
  · simp [hwh]
  · have hu : usage = TextureUsage.TEXTURE_DEPTHSTENCIL := by
      rcases h with h | h | h
      · exact absurd (Or.inl h) hwh
      · exact absurd (Or.inr h) hwh
      · exact h
    simp [hwh, hu]

/-- Witness for C9: a 0x8 request on a texture array with two layers. -/
theorem texture2DArray_setSize_rejects_witness :
    ((0 : Int) ≤ 0 ∨ (8 : Int) ≤ 0 ∨ TextureUsage.TEXTURE_STATIC = TextureUsage.TEXTURE_DEPTHSTENCIL)
      ∧ (Texture2DArray.SetSize 5 (fun t => (t, true))
            { renderSurface_ := some 3, usage_ := TextureUsage.TEXTURE_RENDERTARGET,
              filterMode_ := 1, width_ := 4, height_ := 4, format_ := 28, depth_ := 1,
              layers_ := 2, layerMemoryUse_ := [64, 64], subscribed_ := true }
            2 0 8 28 TextureUsage.TEXTURE_STATIC).result = false :=
  ⟨by decide, (texture2DArray_setSize_rejects 5 (fun t => (t, true)) _ 2 0 8 28
    TextureUsage.TEXTURE_STATIC (by decide)).1⟩

/-- A request that passes the checks does run `Create()` exactly once. -/
theorem texture2DArray_setSize_accepts (newSurface : Nat)
    (create : Texture2DArray → Texture2DArray × Bool) (t : Texture2DArray) (layers : Nat)
    (width height : Int) (format : Nat) (usage : TextureUsage)
    (hw : 0 < width) (hh : 0 < height) (hu : usage ≠ TextureUsage.TEXTURE_DEPTHSTENCIL) :
    (t.SetSize newSurface create layers width height format usage).createCalls = 1 := by
  unfold Texture2DArray.SetSize
  have hwh : ¬ (width ≤ 0 ∨ height ≤ 0) := by omega
  simp [hwh, hu]

/-- The function `SetData_D3D11` rejects a texture without GPU object, a null source and a
mip level out of range, writing nothing. -/
theorem texture3D_setData_rejects_basic (env : Texture3DEnv) (t : Texture3D) (level : Nat)
    (x y z width height depth : Int) (data : Nat)
    (h : t.object_ = 0 ∨ data = 0 ∨ level ≥ t.levels_) :
    t.SetData_D3D11 env level x y z width height depth data = (false, []) := by
  unfold Texture3D.SetData_D3D11
  by_cases h1 : t.object_ = 0
  · simp [h1]
  · by_cases h2 : data = 0
    · simp [h1, h2]
    · have h3 : level ≥ t.levels_ := by
        rcases h with h | h | h
        · exact absurd h h1
        · exact absurd h h2
        · exact h
      simp [h1, h2, h3]

/-- The function `SetData_D3D11` rejects a box with a negative origin, a non-positive
extent, or an end beyond the level, as long as the 32-bit sums `x + width`,
`y + height`, `z + depth` do not overflow. -/
theorem texture3D_setData_rejects_box (env : Texture3DEnv) (t : Texture3D) (level : Nat)
    (x y z width height depth : Int) (data : Nat)
    (hx : isI32 (x + width)) (hy : isI32 (y + height)) (hz : isI32 (z + depth))
    (h : x < 0 ∨ y < 0 ∨ z < 0 ∨ width ≤ 0 ∨ height ≤ 0 ∨ depth ≤ 0
      ∨ x + width > env.levelWidth level ∨ y + height > env.levelHeight level
      ∨ z + depth > env.levelDepth level) :
    t.SetData_D3D11 env level x y z width height depth data = (false, []) := by
  have wx : wrapI32 (x + width) = x + width := by
    unfold isI32 at hx; unfold wrapI32; omega
  have wy : wrapI32 (y + height) = y + height := by
    unfold isI32 at hy; unfold wrapI32; omega
  have wz : wrapI32 (z + depth) = z + depth := by
    unfold isI32 at hz; unfold wrapI32; omega
  unfold Texture3D.SetData_D3D11
  rw [wx, wy, wz]
  have hb : x < 0 ∨ x + width > env.levelWidth level ∨ y < 0 ∨ y + height > env.levelHeight level
      ∨ z < 0 ∨ z + depth > env.levelDepth level ∨ width ≤ 0 ∨ height ≤ 0 ∨ depth ≤ 0 := by
    omega
  simp only [hb, if_true]
  split_ifs <;> rfl

/-- C10: the box check of `SetData_D3D11` is done in 32-bit arithmetic. On a
4x4x4 texture the request `x = 1, width = 2147483647` has `x + width` beyond
the level width, yet the call returns true and issues an `UpdateSubresource`
whose box runs from 1 to 2147483648. -/
theorem texture3D_setData_accepts_overflowing_box :
    (1 : Int) + 2147483647 > sampleTexture3DEnv.levelWidth 0
      ∧ sampleTexture3D.SetData_D3D11 sampleTexture3DEnv 0 1 0 0 2147483647 1 1 1
        = (true, [GpuWrite.updateSubresource 0 1 2147483648 0 1 0 1 4294967292 4294967280]) := by
  decide

/-! ### Audio mixer -/

/-- For a positive sample width the smallest sample value is below the
largest one, and zero lies between them. -/
theorem sampleMin_le_sampleMax (n : Nat) (h : 0 < n) :
    sampleMin n < 0 ∧ 0 ≤ sampleMax n := by
  have h2 : (2 : Int) ≤ 2 ^ (8 * n) := by
    calc (2 : Int) = 2 ^ 1 := by norm_num
      _ ≤ 2 ^ (8 * n) := pow_le_pow_right₀ (by norm_num) (by omega)
  unfold sampleMin sampleMax
  omega

/-- The clip step written with `min` and `max`. -/
theorem clipSample_eq_min_max (n : Nat) (h : 0 < n) (x : Int) :
    clipSample n x = min (max x (sampleMin n)) (sampleMax n) := by
  have hb := sampleMin_le_sampleMax n h
  unfold clipSample
  split_ifs with h1 h2
  · rw [min_eq_right]
    exact le_trans (le_of_lt h1) (le_max_left _ _)
  · rw [max_eq_right (le_of_lt h2), min_eq_left]
    omega
  · rw [max_eq_left (by omega), min_eq_left (by omega)]

/-- C3: clipping in `MixOutput` is saturating. Every sample written to the
device is `min(max(a, MIN), MAX)` of the accumulated sample `a` at the same
place in the clip buffer, for the bounds of the output sample width; a sample
above the range is written as `MAX`, one below as `MIN`. For 16-bit output the
bounds are -32768 and 32767, and the accumulated value 32768 is written as
32767 where a modulo-2^16 wrap would give -32768. -/
theorem mixOutput_clip_saturating (a : Audio) (heap : SourceHeap) (h : 0 < a.sampleSize_) :
    (a.MixOutput heap).dest = (a.MixOutput heap).audio.clipBuffer_.map
        (fun x => min (max x (sampleMin a.sampleSize_)) (sampleMax a.sampleSize_))
      ∧ (∀ x, sampleMax a.sampleSize_ < x → clipSample a.sampleSize_ x = sampleMax a.sampleSize_)
      ∧ (∀ x, x < sampleMin a.sampleSize_ → clipSample a.sampleSize_ x = sampleMin a.sampleSize_)
      ∧ (sampleMin 2 = -32768 ∧ sampleMax 2 = 32767)
      ∧ (clipSample 2 32768 = 32767 ∧ wrapSample 2 32768 = -32768)
      ∧ (clipSample 2 (-32769) = -32768 ∧ wrapSample 2 (-32769) = 32767) := by
  refine ⟨?_, ?_, ?_, by decide, by decide, by decide⟩
  · simp only [Audio.MixOutput]
    apply List.map_congr_left
    intro x _
    exact clipSample_eq_min_max _ h x
  · intro x hx
    unfold clipSample
    rw [if_pos hx]
  · intro x hx
    have hb := sampleMin_le_sampleMax _ h
    unfold clipSample
    rw [if_neg (by omega), if_pos hx]

/-- Witness for C3: the sample mixer writes 16-bit samples. -/
theorem mixOutput_clip_saturating_witness :
    0 < sampleAudio.sampleSize_
      ∧ (sampleMin 2 = -32768 ∧ sampleMax 2 = 32767) :=
  ⟨by decide, (mixOutput_clip_saturating sampleAudio (fun _ => constantSource 20000)
    (by decide)).2.2.2.1⟩

/-- C4: for a sound type for which no master gain was ever set,
`GetMasterGain` returns exactly 1.0, leaves the mixer as it was and so adds no
entry to the master-gain table. -/
theorem getMasterGain_unknown_type (a : Audio) (type : Nat)
    (h : a.HasMasterGain type = false) :
    (a.GetMasterGain type).1 = 1
      ∧ (a.GetMasterGain type).2.masterGain_ = a.masterGain_
      ∧ (a.GetMasterGain type).2.HasMasterGain type = false := by
  have hnone : (a.masterGain_.find? fun e => e.1 == type) = none := by
    unfold Audio.HasMasterGain at h
    rw [List.find?_eq_none]
    intro e he
    have := (List.any_eq_false.mp h) e he
    simpa using this
  unfold Audio.GetMasterGain
  rw [hnone]
  exact ⟨rfl, rfl, h⟩

/-- Witness for C4: type 7 on a mixer that only configured type 3. -/
theorem getMasterGain_unknown_type_witness :
    (sampleAudio.SetMasterGain 3 (1 / 2)).HasMasterGain 7 = false
      ∧ ((sampleAudio.SetMasterGain 3 (1 / 2)).GetMasterGain 7).1 = 1 :=
  ⟨by decide, (getMasterGain_unknown_type (sampleAudio.SetMasterGain 3 (1 / 2)) 7 (by decide)).1⟩

/-- One registration call keeps the source list free of duplicates. -/
theorem call_nodup (a : Audio) (c : SourceCall) (h : a.soundSources_.Nodup) :
    (a.call c).soundSources_.Nodup := by
  cases c with
  | add p =>
    simp only [Audio.call, Audio.AddSoundSource]
    split_ifs with hp
    · exact h
    · simp only
      rw [List.nodup_append]
      refine ⟨h, List.nodup_singleton p, ?_⟩
      intro x hx hx2
      rw [List.mem_singleton] at hx2
      exact hp (hx2 ▸ hx)
  | remove p =>
    simp only [Audio.call, Audio.RemoveSoundSource]
    exact h.erase p

/-- A sequence of registration calls keeps the source list free of duplicates. -/
theorem calls_nodup (cs : List SourceCall) (a : Audio) (h : a.soundSources_.Nodup) :
    (a.calls cs).soundSources_.Nodup := by
  induction cs generalizing a with
  | nil => exact h
  | cons c cs ih =>
    simp only [Audio.calls, List.foldl_cons]
    exact ih (a.call c) (call_nodup a c h)

/-- C5: after every sequence of `AddSoundSource` / `RemoveSoundSource` calls
the list returned by `GetSoundSources()` holds no source twice; adding a source
that is already registered leaves the list (and its count) unchanged; removing
a source that is not registered leaves the list unchanged, and removing a
registered one lowers the count by exactly one. -/
theorem soundSources_registration (a : Audio) (cs : List SourceCall)
    (h : a.GetSoundSources.Nodup) :
    (a.calls cs).GetSoundSources.Nodup
      ∧ (∀ p, p ∈ (a.calls cs).GetSoundSources →
          ((a.calls cs).AddSoundSource p).GetSoundSources = (a.calls cs).GetSoundSources)
      ∧ (∀ p, p ∉ (a.calls cs).GetSoundSources →
          ((a.calls cs).AddSoundSource p).GetSoundSources.length
            = (a.calls cs).GetSoundSources.length + 1)
      ∧ (∀ p, p ∉ (a.calls cs).GetSoundSources →
          ((a.calls cs).RemoveSoundSource p).GetSoundSources = (a.calls cs).GetSoundSources)
      ∧ (∀ p, p ∈ (a.calls cs).GetSoundSources →
          ((a.calls cs).RemoveSoundSource p).GetSoundSources.length + 1
            = (a.calls cs).GetSoundSources.length) := by
  refine ⟨calls_nodup cs a h, ?_, ?_, ?_, ?_⟩
  · intro p hp
    unfold Audio.GetSoundSources at hp
    simp [Audio.AddSoundSource, Audio.GetSoundSources, hp]
  · intro p hp
    unfold Audio.GetSoundSources at hp
    simp [Audio.AddSoundSource, Audio.GetSoundSources, hp]
  · intro p hp
    unfold Audio.GetSoundSources at hp
    simp only [Audio.RemoveSoundSource, Audio.GetSoundSources]
    exact List.erase_of_not_mem hp
  · intro p hp
    unfold Audio.GetSoundSources at hp
    simp only [Audio.RemoveSoundSource, Audio.GetSoundSources]
    rw [List.length_erase_of_mem hp]
    have : 0 < (a.calls cs).soundSources_.length := List.length_pos_of_mem hp
    omega

/-- Witness for C5: source 4 registered twice, an unknown source removed. -/
theorem soundSources_registration_witness :
    Audio.init.GetSoundSources.Nodup
      ∧ (Audio.init.calls [SourceCall.add 4, SourceCall.add 4, SourceCall.remove 9,
          SourceCall.add 5, SourceCall.remove 4]).GetSoundSources.Nodup :=
  ⟨by decide, (soundSources_registration Audio.init [SourceCall.add 4, SourceCall.add 4,
    SourceCall.remove 9, SourceCall.add 5, SourceCall.remove 4] (by decide)).1⟩

/-- C8: after a successful `SetMode`, the sequence `Play(); Stop(); Play()`
succeeds, ends with `IsPlaying()` true and leaves `GetMixRate()`, `IsStereo()`,
`GetSampleSize()` and `GetInterpolation()` at their values right after
`SetMode`. -/
theorem setMode_play_stop_play (openDevice : Int → Bool → DeviceSpec) (a : Audio)
    (bufferLengthMSec mixRate : Int) (stereo interpolation : Bool)
    (h : (a.SetMode openDevice bufferLengthMSec mixRate stereo interpolation).2 = true) :
    (a.SetMode openDevice bufferLengthMSec mixRate stereo interpolation).1.playStopPlay.2 = true
      ∧ (a.SetMode openDevice bufferLengthMSec mixRate stereo interpolation).1.playStopPlay.1.IsPlaying
          = true
      ∧ (a.SetMode openDevice bufferLengthMSec mixRate stereo interpolation).1.playStopPlay.1.GetMixRate
          = (a.SetMode openDevice bufferLengthMSec mixRate stereo interpolation).1.GetMixRate
      ∧ (a.SetMode openDevice bufferLengthMSec mixRate stereo interpolation).1.playStopPlay.1.IsStereo
          = (a.SetMode openDevice bufferLengthMSec mixRate stereo interpolation).1.IsStereo
      ∧ (a.SetMode openDevice bufferLengthMSec mixRate stereo interpolation).1.playStopPlay.1.GetSampleSize
          = (a.SetMode openDevice bufferLengthMSec mixRate stereo interpolation).1.GetSampleSize
      ∧ (a.SetMode openDevice bufferLengthMSec mixRate stereo
            interpolation).1.playStopPlay.1.GetInterpolation
          = (a.SetMode openDevice bufferLengthMSec mixRate stereo interpolation).1.GetInterpolation := by
  unfold Audio.SetMode at h ⊢
  by_cases hv : bufferLengthMSec ≤ 0 ∨ mixRate ≤ 0
  · simp [hv] at h
  · by_cases hd : (openDevice mixRate stereo).deviceID = 0
    · simp [hv, hd] at h
    · simp [hv, hd, Audio.playStopPlay, Audio.Play, Audio.Stop, Audio.IsPlaying,
        Audio.GetMixRate, Audio.IsStereo, Audio.GetSampleSize, Audio.GetInterpolation]

/-- Witness for C8: `SetMode(20, 44100, true, true)` on a fresh mixer. -/
theorem setMode_play_stop_play_witness :
    (Audio.init.SetMode sampleDevice 20 44100 true true).2 = true
      ∧ (Audio.init.SetMode sampleDevice 20 44100 true true).1.playStopPlay.1.IsPlaying = true :=
  ⟨by decide, (setMode_play_stop_play sampleDevice Audio.init 20 44100 true true (by decide)).2.1⟩

/-- A sample scaled by gain 1.0 is the sample itself. -/
theorem roundToZero_one_mul (v : Int) : roundToZero (1 * (v : Rat)) = v := by
  simp [roundToZero]

/-- Summing a constant block into a constant accumulation buffer. -/
theorem zipWith_replicate_const (n : Nat) (x c : Int) :
    List.zipWith (fun x c => wrapI32 (x + c)) (List.replicate n x) (List.replicate n c)
      = List.replicate n (wrapI32 (x + c)) := by
  induction n with
  | zero => rfl
  | succ n ih => simp [List.replicate_succ, ih]

/-- A source with applied gain 1.0 and constant sound `v` adds `v` to every
accumulator of a constant buffer. -/
theorem mix_constant (a : Audio) (s : SoundSource) (v : Int) (n : Nat) (x : Int)
    (hg : a.appliedGain s = 1) (hv : ∀ pos interp, s.sound_ pos interp = v) :
    (s.Mix a (List.replicate n x)).1 = List.replicate n (wrapI32 (x + v)) := by
  have hc : ∀ slot, a.contribution s slot = v := by
    intro slot
    unfold Audio.contribution
    rw [hg, hv]
    exact roundToZero_one_mul v
  have hmap : (List.range n).map (a.contribution s) = List.replicate n v := by
    rw [List.eq_replicate_iff]
    refine ⟨by simp, ?_⟩
    intro b hb
    rw [List.mem_map] at hb
    obtain ⟨i, _, hi⟩ := hb
    rw [← hi, hc]
  unfold SoundSource.Mix
  simp only [List.length_replicate, hmap]
  exact zipWith_replicate_const n x v

/-- Advancing the cursor of one source changes no source's type, gain or
sound. -/
theorem update_advance_fields (a : Audio) (heap : SourceHeap) (p q : Nat) :
    (Function.update heap p (a.advance (heap p)) q).soundType_ = (heap q).soundType_
      ∧ (Function.update heap p (a.advance (heap p)) q).gain_ = (heap q).gain_
      ∧ (Function.update heap p (a.advance (heap p)) q).sound_ = (heap q).sound_ := by
  by_cases hq : q = p
  · subst hq
    simp [Function.update_same, Audio.advance]
  · simp [Function.update_noteq hq]

/-- The source loop passes over the sources of a paused type: it gives what
the loop over the sources of unpaused types alone gives. -/
theorem mixSources_filter (a : Audio) (ps : List Nat) (acc : List Int) (heap : SourceHeap) :
    a.mixSources ps (acc, heap)
      = a.mixSources (ps.filter fun p => !a.IsSoundTypePaused (heap p).soundType_)
          (acc, heap) := by
  induction ps generalizing acc heap with
  | nil => rfl
  | cons p ps ih =>
    by_cases hp : (heap p).soundType_ ∈ a.pausedSoundTypes_
    · have hf : (!a.IsSoundTypePaused (heap p).soundType_) = false := by
        simp [Audio.IsSoundTypePaused, hp]
      rw [List.filter_cons]
      simp only [hf, Bool.false_eq_true, if_false, Audio.mixSources, if_pos hp]
      exact ih acc heap
    · have hf : (!a.IsSoundTypePaused (heap p).soundType_) = true := by
        simp [Audio.IsSoundTypePaused, hp]
      rw [List.filter_cons]
      simp only [hf, if_true, Audio.mixSources, if_neg hp]
      rw [ih]
      congr 1
      apply List.filter_congr
      intro q _
      have hadv : ((heap p).Mix a acc).2 = a.advance (heap p) := rfl
      rw [hadv, (update_advance_fields a heap p q).1]

/-- Half of the sample 10000 is 5000. -/
theorem roundToZero_half : roundToZero (2⁻¹ * 10000) = 5000 := by
  have h : (2⁻¹ * 10000 : Rat) = ((5000 : Int) : Rat) := by norm_num
  rw [h]
  simp [roundToZero]

/-- The whole of the sample 10000 is 10000. -/
theorem roundToZero_whole : roundToZero 10000 = 10000 := by
  simp [roundToZero]

/-- Counterexample for C6: two registered, unpaused sources of the same type
with gain 1.0 that each produce the constant 10000 do not always accumulate
20000. With the master gain of their type set to one half every accumulated
and every emitted sample is 10000; with a third unpaused source of the same
kind registered every accumulated and every emitted sample is 30000. -/
theorem mixOutput_two_sources_not_sum :
    ((sampleAudio.SetMasterGain 1 (1 / 2)).GetSoundSources = [10, 11]
        ∧ (constantSource 10000).gain_ = 1
        ∧ (sampleAudio.SetMasterGain 1 (1 / 2)).IsSoundTypePaused
            (constantSource 10000).soundType_ = false
        ∧ ((sampleAudio.SetMasterGain 1 (1 / 2)).MixOutput
            (fun _ => constantSource 10000)).audio.clipBuffer_ = [10000, 10000, 10000, 10000]
        ∧ ((sampleAudio.SetMasterGain 1 (1 / 2)).MixOutput
            (fun _ => constantSource 10000)).dest = [10000, 10000, 10000, 10000])
      ∧ ((sampleAudio.AddSoundSource 12).GetSoundSources = [10, 11, 12]
        ∧ (sampleAudio.AddSoundSource 12).IsSoundTypePaused
            (constantSource 10000).soundType_ = false
        ∧ ((sampleAudio.AddSoundSource 12).GetMasterGain (constantSource 10000).soundType_).1 = 1
        ∧ ((sampleAudio.AddSoundSource 12).MixOutput
            (fun _ => constantSource 10000)).audio.clipBuffer_ = [30000, 30000, 30000, 30000]
        ∧ ((sampleAudio.AddSoundSource 12).MixOutput
            (fun _ => constantSource 10000)).dest = [30000, 30000, 30000, 30000])
      ∧ clipSample sampleAudio.sampleSize_ (2 * 10000) = 20000 := by
  refine ⟨⟨by decide, rfl, by decide, ?_, ?_⟩, ⟨by decide, by decide, rfl, ?_, ?_⟩, by decide⟩
  all_goals
    simp [Audio.MixOutput, Audio.mixSources, SoundSource.Mix, Audio.contribution,
      Audio.appliedGain, Audio.GetMasterGain, Audio.SetMasterGain, Audio.AddSoundSource,
      Audio.channelCount, sampleAudio, constantSource, roundToZero_half, roundToZero_whole,
      wrapI32, clipSample, sampleMax, sampleMin, List.range_succ]

/-- Two sources of constant value `2^30` and gain 1.0 overflow the 32-bit
accumulator: every accumulated sample is `-2^31`, not `2^31`. -/
theorem mixOutput_sum_wraps :
    (sampleAudio.MixOutput (fun _ => constantSource 1073741824)).audio.clipBuffer_
      = [-2147483648, -2147483648, -2147483648, -2147483648] := by
  have h : roundToZero 1073741824 = 1073741824 := by simp [roundToZero]
  simp [Audio.MixOutput, Audio.mixSources, SoundSource.Mix, Audio.contribution,
    Audio.appliedGain, Audio.GetMasterGain, Audio.channelCount, sampleAudio, constantSource,
    h, wrapI32, List.range_succ]

/-- C6 (amended): mixing is summation. Let two sources of the same type have
gain 1.0 and each produce the constant sample value `v`, let the master gain of
their type be 1.0, let the two be exactly the registered sources whose type is
not paused (so both are registered and unpaused), and let `2v` fit a 32-bit
accumulator. Then every accumulated sample after `MixOutput` equals `2v` and
every emitted sample equals `clip(2v)`. -/
theorem mixOutput_two_sources_sum (a : Audio) (heap : SourceHeap) (p1 p2 : Nat) (v : Int)
    (htype : (heap p1).soundType_ = (heap p2).soundType_)
    (hgain1 : (heap p1).gain_ = 1) (hgain2 : (heap p2).gain_ = 1)
    (hv1 : ∀ pos interp, (heap p1).sound_ pos interp = v)
    (hv2 : ∀ pos interp, (heap p2).sound_ pos interp = v)
    (hmaster : (a.GetMasterGain (heap p1).soundType_).1 = 1)
    (honly : a.GetSoundSources.filter (fun p => !a.IsSoundTypePaused (heap p).soundType_)
      = [p1, p2])
    (hfit : isI32 (2 * v)) :
    (a.MixOutput heap).audio.clipBuffer_
        = List.replicate (a.fragmentSize_ * a.channelCount) (2 * v)
      ∧ (a.MixOutput heap).dest
        = List.replicate (a.fragmentSize_ * a.channelCount) (clipSample a.sampleSize_ (2 * v)) := by
  have hg1 : a.appliedGain (heap p1) = 1 := by
    unfold Audio.appliedGain
    rw [hmaster, hgain1, one_mul]
  have hg2 : a.appliedGain (heap p2) = 1 := by
    unfold Audio.appliedGain
    rw [← htype, hmaster, hgain2, one_mul]
  have hmem : p1 ∈ a.GetSoundSources.filter
      (fun p => !a.IsSoundTypePaused (heap p).soundType_) := by
    rw [honly]
    exact List.mem_cons_self p1 [p2]
  have hnp1 : (heap p1).soundType_ ∉ a.pausedSoundTypes_ := by
    simpa [Audio.IsSoundTypePaused] using (List.mem_filter.1 hmem).2
  obtain ⟨ft, fg, fs⟩ := update_advance_fields a heap p1 p2
  have hnp2 : (Function.update heap p1 (a.advance (heap p1)) p2).soundType_
      ∉ a.pausedSoundTypes_ := by
    rw [ft, ← htype]
    exact hnp1
  have hg2u : a.appliedGain (Function.update heap p1 (a.advance (heap p1)) p2) = 1 := by
    unfold Audio.appliedGain at hg2 ⊢
    rw [ft, fg]
    exact hg2
  have hv2u : ∀ pos interp,
      (Function.update heap p1 (a.advance (heap p1)) p2).sound_ pos interp = v := by
    intro pos interp
    rw [fs]
    exact hv2 pos interp
  have hw1 : wrapI32 (0 + v) = v := by
    unfold isI32 at hfit; unfold wrapI32; omega
  have hw2 : wrapI32 (v + v) = 2 * v := by
    unfold isI32 at hfit; unfold wrapI32; omega
  have hacc : (a.mixSources [p1, p2]
      (List.replicate (a.fragmentSize_ * a.channelCount) 0, heap)).1
        = List.replicate (a.fragmentSize_ * a.channelCount) (2 * v) := by
    have hadv : ((heap p1).Mix a (List.replicate (a.fragmentSize_ * a.channelCount) 0)).2
        = a.advance (heap p1) := rfl
    simp only [Audio.mixSources, if_neg hnp1, hadv, if_neg hnp2,
      mix_constant a (heap p1) v _ 0 hg1 hv1, hw1,
      mix_constant a _ v _ v hg2u hv2u, hw2]
  unfold Audio.GetSoundSources at honly
  simp only [Audio.MixOutput]
  rw [mixSources_filter, honly, hacc]
  simp only [List.map_replicate, and_self]

/-- Witness for C6: on a mixer with a third, paused source registered, the two
unpaused sources of constant value 20000 accumulate 40000, which is written as
32767. -/
theorem mixOutput_two_sources_sum_witness :
    sampleBusyAudio.GetSoundSources = [10, 11, 12]
      ∧ (sampleBusyAudio.MixOutput sampleBusyHeap).audio.clipBuffer_
        = [40000, 40000, 40000, 40000]
      ∧ (sampleBusyAudio.MixOutput sampleBusyHeap).dest
        = [32767, 32767, 32767, 32767] :=
  ⟨by decide,
    mixOutput_two_sources_sum sampleBusyAudio sampleBusyHeap 10 11 20000
      rfl rfl rfl (fun _ _ => rfl) (fun _ _ => rfl) rfl (by decide) (by decide)⟩

/-- The source loop leaves every source of a paused type exactly as it was. -/
theorem mixSources_paused_fixed (a : Audio) (ps : List Nat) (acc : List Int) (heap : SourceHeap)
    (q : Nat) (hq : (heap q).soundType_ ∈ a.pausedSoundTypes_) :
    (a.mixSources ps (acc, heap)).2 q = heap q := by
  induction ps generalizing acc heap with
  | nil => rfl
  | cons p ps ih =>
    simp only [Audio.mixSources]
    split_ifs with hp
    · exact ih acc heap hq
    · have hne : q ≠ p := by
        intro h
        subst h
        exact hp hq
      have hsame : Function.update heap p ((heap p).Mix a acc).2 q = heap q :=
        Function.update_noteq hne _ _
      rw [ih _ _ (by rw [hsame]; exact hq), hsame]

/-- The source loop does not touch a source that is not in the list. -/
theorem mixSources_not_mem (a : Audio) (ps : List Nat) (acc : List Int) (heap : SourceHeap)
    (q : Nat) (hq : q ∉ ps) :
    (a.mixSources ps (acc, heap)).2 q = heap q := by
  induction ps generalizing acc heap with
  | nil => rfl
  | cons p ps ih =>
    have hne : q ≠ p := fun h => hq (h ▸ List.mem_cons_self _ _)
    have hq2 : q ∉ ps := fun h => hq (List.mem_cons_of_mem _ h)
    simp only [Audio.mixSources]
    split_ifs with hp
    · exact ih acc heap hq2
    · rw [ih _ _ hq2]
      exact Function.update_noteq hne _ _

/-- The source loop advances a registered source of an unpaused type by
exactly one fragment when the list holds no source twice. -/
theorem mixSources_advance (a : Audio) (ps : List Nat) (acc : List Int) (heap : SourceHeap)
    (q : Nat) (hnd : ps.Nodup) (hq : q ∈ ps) (hrun : (heap q).soundType_ ∉ a.pausedSoundTypes_) :
    (a.mixSources ps (acc, heap)).2 q = a.advance (heap q) := by
  induction ps generalizing acc heap with
  | nil => exact absurd hq (List.not_mem_nil q)
  | cons p ps ih =>
    rw [List.nodup_cons] at hnd
    by_cases hqp : q = p
    · subst hqp
      simp only [Audio.mixSources, if_neg hrun]
      rw [mixSources_not_mem a ps _ _ q hnd.1]
      simp [SoundSource.Mix]
    · have hq2 : q ∈ ps := by
        rcases List.mem_cons.mp hq with h | h
        · exact absurd h hqp
        · exact h
      simp only [Audio.mixSources]
      split_ifs with hp
      · exact ih acc heap hnd.2 hq2 hrun
      · have hsame : Function.update heap p ((heap p).Mix a acc).2 q = heap q :=
          Function.update_noteq hqp _ _
        rw [ih _ _ hnd.2 hq2 (by rw [hsame]; exact hrun), hsame]

/-- Mix callbacks change nothing of the mixer but the clip buffer, and leave
every source of a paused type as it was. -/
theorem mixCallbacks_frame (n : Nat) (a : Audio) (heap : SourceHeap) :
    (mixCallbacks n (a, heap)).1.soundSources_ = a.soundSources_
      ∧ (mixCallbacks n (a, heap)).1.pausedSoundTypes_ = a.pausedSoundTypes_
      ∧ (mixCallbacks n (a, heap)).1.fragmentSize_ = a.fragmentSize_
      ∧ (mixCallbacks n (a, heap)).1.mixRate_ = a.mixRate_
      ∧ ∀ q, (heap q).soundType_ ∈ a.pausedSoundTypes_ → (mixCallbacks n (a, heap)).2 q = heap q := by
  induction n generalizing a heap with
  | zero => exact ⟨rfl, rfl, rfl, rfl, fun _ _ => rfl⟩
  | succ n ih =>
    simp only [mixCallbacks]
    obtain ⟨h1, h2, h3, h4, h5⟩ := ih (a.MixOutput heap).audio (a.MixOutput heap).sources
    have hfix : ∀ q, (heap q).soundType_ ∈ a.pausedSoundTypes_ →
        (a.MixOutput heap).sources q = heap q := by
      intro q hq
      exact mixSources_paused_fixed a _ _ heap q hq
    refine ⟨h1, h2, h3, h4, ?_⟩
    intro q hq
    rw [h5 q (by rw [hfix q hq]; exact hq), hfix q hq]

/-- The cursor advance only depends on the fragment size and the mix rate. -/
theorem advance_congr (a b : Audio) (s : SoundSource)
    (hf : b.fragmentSize_ = a.fragmentSize_) (hm : b.mixRate_ = a.mixRate_) :
    b.advance s = a.advance s := by
  simp [Audio.advance, Audio.step, hf, hm]

/-- Pausing a type puts it into the paused set and changes nothing else. -/
theorem pauseSoundType_frame (a : Audio) (type : Nat) :
    type ∈ (a.PauseSoundType type).pausedSoundTypes_
      ∧ (a.PauseSoundType type).soundSources_ = a.soundSources_
      ∧ (a.PauseSoundType type).fragmentSize_ = a.fragmentSize_
      ∧ (a.PauseSoundType type).mixRate_ = a.mixRate_ := by
  unfold Audio.PauseSoundType
  split_ifs with h
  · exact ⟨h, rfl, rfl, rfl⟩
  · exact ⟨List.mem_cons_self _ _, rfl, rfl, rfl⟩

/-- C7: while a sound type is paused, any number `n` of mix callbacks leaves
every registered source of that type registered and its playback position
unchanged; after `ResumeSoundType(type)` or `ResumeAll()` the next mix callback
moves the cursor on by one fragment from exactly the position it had when the
type was paused (the source list holding no source twice). -/
theorem pause_freezes_position (a : Audio) (heap : SourceHeap) (type n p : Nat)
    (hp : p ∈ a.GetSoundSources) (ht : (heap p).soundType_ = type) :
    p ∈ (pausedRun a heap type n).1.GetSoundSources
      ∧ ((pausedRun a heap type n).2 p).position_ = (heap p).position_
      ∧ (a.GetSoundSources.Nodup →
          (((pausedRun a heap type n).1.ResumeSoundType type).MixOutput
              (pausedRun a heap type n).2).sources p
            = a.advance (heap p))
      ∧ (a.GetSoundSources.Nodup →
          ((pausedRun a heap type n).1.ResumeAll.MixOutput (pausedRun a heap type n).2).sources p
            = a.advance (heap p)) := by
  obtain ⟨hin, hsrc, hfrag, hrate⟩ := pauseSoundType_frame a type
  obtain ⟨h1, h2, h3, h4, h5⟩ := mixCallbacks_frame n (a.PauseSoundType type) heap
  have hfix : (pausedRun a heap type n).2 p = heap p := by
    unfold pausedRun
    exact h5 p (by rw [ht]; exact hin)
  unfold Audio.GetSoundSources at hp ⊢
  have hlist : (pausedRun a heap type n).1.soundSources_ = a.soundSources_ := by
    unfold pausedRun
    rw [h1, hsrc]
  have hf : (pausedRun a heap type n).1.fragmentSize_ = a.fragmentSize_ := by
    unfold pausedRun
    rw [h3, hfrag]
  have hm : (pausedRun a heap type n).1.mixRate_ = a.mixRate_ := by
    unfold pausedRun
    rw [h4, hrate]
  refine ⟨by rw [hlist]; exact hp, by rw [hfix], ?_, ?_⟩
  · intro hnd
    have hrun : ((pausedRun a heap type n).2 p).soundType_
        ∉ ((pausedRun a heap type n).1.ResumeSoundType type).pausedSoundTypes_ := by
      rw [hfix, ht]
      simp [Audio.ResumeSoundType]
    have := mixSources_advance ((pausedRun a heap type n).1.ResumeSoundType type)
      a.soundSources_ (List.replicate (((pausedRun a heap type n).1.ResumeSoundType type).fragmentSize_
        * ((pausedRun a heap type n).1.ResumeSoundType type).channelCount) 0)
      (pausedRun a heap type n).2 p hnd hp hrun
    simp only [Audio.MixOutput]
    have hl2 : ((pausedRun a heap type n).1.ResumeSoundType type).soundSources_ = a.soundSources_ :=
      hlist
    rw [hl2, this, hfix]
    exact advance_congr a _ _ hf hm
  · intro hnd
    have hrun : ((pausedRun a heap type n).2 p).soundType_
        ∉ ((pausedRun a heap type n).1.ResumeAll).pausedSoundTypes_ := by
      simp [Audio.ResumeAll]
    have := mixSources_advance ((pausedRun a heap type n).1.ResumeAll)
      a.soundSources_ (List.replicate (((pausedRun a heap type n).1.ResumeAll).fragmentSize_
        * ((pausedRun a heap type n).1.ResumeAll).channelCount) 0)
      (pausedRun a heap type n).2 p hnd hp hrun
    simp only [Audio.MixOutput]
    have hl2 : ((pausedRun a heap type n).1.ResumeAll).soundSources_ = a.soundSources_ := hlist
    rw [hl2, this, hfix]
    exact advance_congr a _ _ hf hm

/-- Witness for C7: source 10 of the sample mixer, its type 1 paused for three
mix callbacks. -/
theorem pause_freezes_position_witness :
    10 ∈ sampleAudio.GetSoundSources
      ∧ ((pausedRun sampleAudio (fun _ => constantSource 5) 1 3).2 10).position_
        = (constantSource 5).position_ :=
  ⟨by decide, (pause_freezes_position sampleAudio (fun _ => constantSource 5) 1 3 10
    (by decide) rfl).2.1⟩

/-! ### Constant-buffer rounding -/

/-- Masking a 32-bit value with `2^32 - 2^k` clears its low `k` bits. -/
theorem land_high_mask (n k : Nat) (h : n < 2 ^ 32) (hk : k ≤ 32) :
    Nat.land n (2 ^ 32 - 2 ^ k) = n / 2 ^ k * 2 ^ k := by
  have hm : 2 ^ 32 - 2 ^ k = (2 ^ (32 - k) - 1) <<< k := by
    rw [Nat.shiftLeft_eq, Nat.sub_mul, ← pow_add, one_mul]
    congr 2
    omega
  have hn : n / 2 ^ k * 2 ^ k = (n >>> k) <<< k := by
    rw [Nat.shiftLeft_eq, Nat.shiftRight_eq_div_pow]
  show n &&& (2 ^ 32 - 2 ^ k) = _
  rw [hm, hn]
  apply Nat.eq_of_testBit_eq
  intro i
  rw [Nat.testBit_and, Nat.testBit_shiftLeft, Nat.testBit_shiftLeft, Nat.testBit_two_pow_sub_one,
    Nat.testBit_shiftRight]
  by_cases hik : k ≤ i
  · have e : k + (i - k) = i := by omega
    rw [e]
    by_cases hi : i < 32
    · have : i - k < 32 - k := by omega
      simp [hik, this]
    · have hlt : n < 2 ^ i := lt_of_lt_of_le h (Nat.pow_le_pow_right (by norm_num) (by omega))
      simp [Nat.testBit_lt_two_pow hlt]
  · simp [hik]

/-- The mask `0xfffffff0` rounds a 32-bit value down to a multiple of 16. -/
theorem land_fffffff0 (n : Nat) (h : n < 4294967296) :
    Nat.land n 4294967280 = n / 16 * 16 := by
  have := land_high_mask n 4 (by norm_num; exact h) (by norm_num)
  norm_num at this
  exact this

/-- The mask `0xfffffffc` rounds a 32-bit value down to a multiple of 4. -/
theorem land_fffffffc (n : Nat) (h : n < 4294967296) :
    Nat.land n 4294967292 = n / 4 * 4 := by
  have := land_high_mask n 2 (by norm_num; exact h) (by norm_num)
  norm_num at this
  exact this

/-- The rounding statements in closed form: add 15 modulo `2^32`, then drop the
low four bits. -/
theorem roundUpSize_eq (size : Nat) :
    roundUpSize size = (size + 15) % 4294967296 / 16 * 16 := by
  unfold roundUpSize wrapU32
  exact land_fffffff0 _ (Nat.mod_lt _ (by norm_num))

/-- Counterexample for C11: for the non-zero 32-bit size `0xfffffff1` the
addition of 15 wraps around, so both `SetSize_D3D11` and `SetSize_OGL` get past
the zero check and set `size_` to 0, which is not `>= size`. -/
theorem setSize_rounding_wraps :
    ((sampleConstantBuffer.SetSize_D3D11 (fun _ => some 9) 4294967281).1.size_ = 0
      ∧ (sampleConstantBuffer.SetSize_OGL 9 4294967281).1.size_ = 0)
      ∧ ¬ (4294967281 ≤ (sampleConstantBuffer.SetSize_D3D11 (fun _ => some 9) 4294967281).1.size_)
      ∧ ¬ (4294967281 ≤ (sampleConstantBuffer.SetSize_OGL 9 4294967281).1.size_) := by
  decide

/-- C11 (amended): for every size with `0 < size <= 0xfffffff0`, after
`SetSize_D3D11(size)` (whatever `CreateBuffer` answers) and after
`SetSize_OGL(size)` the member `size_` is the smallest multiple of 16 that is
`>= size`, the shadow buffer holds exactly `size_` zero bytes and `dirty_` is
false. -/
theorem setSize_rounds_up (createBuffer : Nat → Option Nat) (genBuffer : Nat)
    (cb : ConstantBuffer) (size : Nat) (h0 : 0 < size) (hmax : size ≤ 4294967280) :
    (16 ∣ roundUpSize size ∧ size ≤ roundUpSize size
        ∧ ∀ m, 16 ∣ m → size ≤ m → roundUpSize size ≤ m)
      ∧ ((cb.SetSize_D3D11 createBuffer size).1.size_ = roundUpSize size
        ∧ (cb.SetSize_D3D11 createBuffer size).1.shadowData_
            = some (List.replicate (roundUpSize size) 0)
        ∧ (cb.SetSize_D3D11 createBuffer size).1.dirty_ = false)
      ∧ ((cb.SetSize_OGL genBuffer size).1.size_ = roundUpSize size
        ∧ (cb.SetSize_OGL genBuffer size).1.shadowData_
            = some (List.replicate (roundUpSize size) 0)
        ∧ (cb.SetSize_OGL genBuffer size).1.dirty_ = false) := by
  have hne : size ≠ 0 := by omega
  refine ⟨?_, ?_, ?_⟩
  · rw [roundUpSize_eq]
    have hmod : (size + 15) % 4294967296 = size + 15 := Nat.mod_eq_of_lt (by omega)
    rw [hmod]
    refine ⟨Dvd.intro_left _ rfl, by omega, ?_⟩
    intro m hm hle
    obtain ⟨k, rfl⟩ := hm
    omega
  · unfold ConstantBuffer.SetSize_D3D11
    simp only [hne, if_false]
    cases hg : cb.Release_D3D11.graphics_ with
    | false => simp [hg]
    | true =>
      cases hc : createBuffer (roundUpSize size) with
      | none => simp [hg, hc]
      | some hnd => simp [hg, hc]
  · unfold ConstantBuffer.SetSize_OGL
    simp only [hne, if_false]
    cases hg : cb.graphics_ with
    | false => simp [hg]
    | true =>
      by_cases ho : cb.object_ = 0
      · simp [hg, ho]
      · simp [hg, ho]

/-- Witness for C11: a request of 17 bytes yields a buffer of 32 bytes. -/
theorem setSize_rounds_up_witness :
    (0 < 17 ∧ 17 ≤ 4294967280)
      ∧ (sampleConstantBuffer.SetSize_OGL 9 17).1.size_ = roundUpSize 17 :=
  ⟨by decide, (setSize_rounds_up (fun _ => some 9) 9 sampleConstantBuffer 17
    (by decide) (by decide)).2.2.1⟩

/-! ### Texture3D data layout and block alignment -/

/-- C17: the dynamic-texture path of `SetData_D3D11` does not advance the
source by page. Filling a 2x2x2 dynamic texture (rows of 8 bytes) copies, for
page 1, from source offsets 0 and 8 again, where tightly packed pages (the
layout `GetData_D3D11` writes) put rows (1*2+0) and (1*2+1) at offsets 16 and
24. -/
theorem texture3D_setData_dynamic_ignores_page :
    sampleDynamicTexture3D.SetData_D3D11 sampleDynamicTexture3DEnv 0 0 0 0 2 2 2 1
        = (true, [GpuWrite.memcpy 0 0 8, GpuWrite.memcpy 16 8 8,
                  GpuWrite.memcpy 64 0 8, GpuWrite.memcpy 80 8 8])
      ∧ (1 * 2 + 0) * 8 = 16 ∧ (1 * 2 + 1) * 8 = 24 := by
  decide

/-- On a non-negative `int` the statement `x &= ~3` rounds down to a multiple
of four. -/
theorem alignDown4_eq (x : Int) (h0 : 0 ≤ x) (h1 : x ≤ 2147483647) :
    alignDown4 x = x / 4 * 4 := by
  lift x to ℕ using h0
  have hx : x < 4294967296 := by omega
  have hu : toU32 (x : Int) = x := by
    unfold toU32
    omega
  unfold alignDown4
  rw [hu, land_fffffffc x hx]
  unfold toI32 wrapI32
  have : Int.ofNat (x / 4 * 4) = (x : Int) / 4 * 4 := by
    simp
  rw [this]
  omega

/-- On a positive `int` whose increment by 3 does not overflow, the statements
`width += 3; width &= 0xfffffffc;` round up to a multiple of four. -/
theorem alignUp4_eq (w : Int) (h0 : 0 ≤ w) (h1 : w ≤ 2147483644) :
    alignUp4 w = (w + 3) / 4 * 4 := by
  lift w to ℕ using h0
  have hw : w + 3 < 4294967296 := by omega
  have hwrap : wrapI32 ((w : Int) + 3) = ((w + 3 : Nat) : Int) := by
    unfold wrapI32
    omega
  have hu : toU32 (((w + 3 : Nat) : Int)) = w + 3 := by
    unfold toU32
    omega
  unfold alignUp4
  rw [hwrap, hu, land_fffffffc (w + 3) hw]
  unfold toI32 wrapI32
  have : Int.ofNat ((w + 3) / 4 * 4) = ((w : Int) + 3) / 4 * 4 := by
    simp
  rw [this]
  omega

/-- Counterexample for C18: on a compressed 8x8x8 texture the accepted request
`x = 1, width = 4` is adjusted to `x' = 0, width' = 4`, so the adjusted
rectangle ends at 4, before the requested end 5; the call returns true with an
update box from 0 to 4. A width of 2147483647 is adjusted to -2147483648, the
increment by 3 wrapping around. -/
theorem texture3D_alignment_misses_requested_end :
    (sampleTexture3D.SetData_D3D11 sampleCompressedEnv 0 1 0 0 4 4 1 1).1 = true
      ∧ (sampleTexture3D.SetData_D3D11 sampleCompressedEnv 0 1 0 0 4 4 1 1).2
        = [GpuWrite.updateSubresource 0 0 4 0 4 0 1 8 16]
      ∧ alignDown4 1 = 0 ∧ alignUp4 4 = 4
      ∧ ¬ (alignDown4 1 + alignUp4 4 ≥ 1 + 4)
      ∧ alignUp4 2147483647 = -2147483648 := by
  decide

/-- The adjusted values of an origin that is not negative and of positive
extents that leave room for the rounding: multiples of 4, the origin not moved
up, the extents not shrunk, and a block-aligned origin left in place. -/
theorem alignment_bounds (x y width height : Int)
    (hx0 : 0 ≤ x) (hx1 : x ≤ 2147483647) (hy0 : 0 ≤ y) (hy1 : y ≤ 2147483647)
    (hw0 : 0 < width) (hw1 : width ≤ 2147483644)
    (hh0 : 0 < height) (hh1 : height ≤ 2147483644) :
    (4 ∣ alignDown4 x ∧ 4 ∣ alignDown4 y ∧ 4 ∣ alignUp4 width ∧ 4 ∣ alignUp4 height)
      ∧ (alignDown4 x ≤ x ∧ alignDown4 y ≤ y ∧ width ≤ alignUp4 width ∧ height ≤ alignUp4 height)
      ∧ (4 ∣ x → alignDown4 x = x ∧ alignDown4 x + alignUp4 width ≥ x + width)
      ∧ (4 ∣ y → alignDown4 y = y ∧ alignDown4 y + alignUp4 height ≥ y + height) := by
  rw [alignDown4_eq x hx0 hx1, alignDown4_eq y hy0 hy1,
    alignUp4_eq width (le_of_lt hw0) hw1, alignUp4_eq height (le_of_lt hh0) hh1]
  refine ⟨⟨Dvd.intro_left _ rfl, Dvd.intro_left _ rfl, Dvd.intro_left _ rfl,
    Dvd.intro_left _ rfl⟩, ⟨by omega, by omega, by omega, by omega⟩, ?_, ?_⟩
  · intro hd
    obtain ⟨k, rfl⟩ := hd
    omega
  · intro hd
    obtain ⟨k, rfl⟩ := hd
    omega

/-- A call of `SetData_D3D11` that returns true passed every check: the origin
is not negative and the extents are positive. -/
theorem texture3D_setData_accepted (env : Texture3DEnv) (t : Texture3D) (level : Nat)
    (x y z width height depth : Int) (data : Nat)
    (hacc : (t.SetData_D3D11 env level x y z width height depth data).1 = true) :
    t.object_ ≠ 0 ∧ data ≠ 0 ∧ ¬ level ≥ t.levels_
      ∧ ¬ (x < 0 ∨ wrapI32 (x + width) > env.levelWidth level ∨ y < 0
          ∨ wrapI32 (y + height) > env.levelHeight level ∨ z < 0
          ∨ wrapI32 (z + depth) > env.levelDepth level ∨ width ≤ 0 ∨ height ≤ 0 ∨ depth ≤ 0) := by
  unfold Texture3D.SetData_D3D11 at hacc
  by_cases h1 : t.object_ = 0
  · simp [h1] at hacc
  · by_cases h2 : data = 0
    · simp [h1, h2] at hacc
    · by_cases h3 : level ≥ t.levels_
      · simp [h1, h2, h3] at hacc
      · refine ⟨h1, h2, h3, ?_⟩
        intro hbox
        simp only [h1, h2, h3, if_false, if_pos hbox] at hacc
        exact absurd hacc (by simp)

/-- For a compressed texture that is not dynamic, an accepted `SetData_D3D11`
issues one `UpdateSubresource` whose box is the adjusted rectangle. -/
theorem texture3D_setData_compressed_box (env : Texture3DEnv) (t : Texture3D) (level : Nat)
    (x y z width height depth : Int) (data : Nat)
    (hc : env.isCompressed = true) (hu : t.usage_ ≠ TextureUsage.TEXTURE_DYNAMIC)
    (hacc : (t.SetData_D3D11 env level x y z width height depth data).1 = true) :
    (t.SetData_D3D11 env level x y z width height depth data).2
      = [GpuWrite.updateSubresource (D3D11CalcSubresource level 0 t.levels_)
          (toU32 (alignDown4 x)) (toU32 (wrapI32 (alignDown4 x + alignUp4 width)))
          (toU32 (alignDown4 y)) (toU32 (wrapI32 (alignDown4 y + alignUp4 height)))
          (toU32 z) (toU32 (wrapI32 (z + depth)))
          (env.rowDataSize (alignUp4 width))
          (wrapU32 (toU32 (wrapI32 (env.levelHeight level + 3) / 4)
            * env.rowDataSize (alignUp4 width)))] := by
  obtain ⟨h1, h2, h3, hbox⟩ := texture3D_setData_accepted env t level x y z width height depth
    data hacc
  unfold Texture3D.SetData_D3D11
  simp only [h1, h2, h3, if_false, if_neg hbox, hc, if_true, if_neg hu]

/-- For a compressed dynamic texture, an accepted `SetData_D3D11` copies the
block rows of the adjusted rectangle into the mapped subresource. -/
theorem texture3D_setData_compressed_copies (env : Texture3DEnv) (t : Texture3D) (level : Nat)
    (x y z width height depth : Int) (data : Nat) (m : MappedSubresource)
    (hc : env.isCompressed = true) (hu : t.usage_ = TextureUsage.TEXTURE_DYNAMIC)
    (hm : env.mapped = some m)
    (hacc : (t.SetData_D3D11 env level x y z width height depth data).1 = true) :
    (t.SetData_D3D11 env level x y z width height depth data).2
      = dynamicCopies m (alignDown4 y / 4) z (wrapI32 (alignUp4 height + 3) / 4) depth
          (env.rowDataSize (alignDown4 x)) (env.rowDataSize (alignUp4 width)) := by
  obtain ⟨h1, h2, h3, hbox⟩ := texture3D_setData_accepted env t level x y z width height depth
    data hacc
  unfold Texture3D.SetData_D3D11
  simp only [h1, h2, h3, if_false, if_neg hbox, hc, if_true, if_pos hu, hm]

/-- C18 (amended): for a compressed 3D texture, `SetData_D3D11` aligns the
update region on a 4x4 block. For every accepted request (the call returns
true) with `width, height <= 2147483644`, the adjusted `x', y', width',
height'` are all multiples of 4 with `x' <= x`, `y' <= y`, `width' >= width`
and `height' >= height`; when `x` (resp. `y`) is itself a multiple of 4,
`x' = x` and the adjusted rectangle contains the requested one in that
direction. The adjusted values are the ones used: a texture that is not dynamic
gets one `UpdateSubresource` with the box `x' .. x'+width'`, `y' .. y'+height'`
and the row size of `width'`; a dynamic texture gets the copies of the block
rows `y'/4 .. y'/4 + (height'+3)/4` with row start and row size taken from `x'`
and `width'`. -/
theorem texture3D_block_alignment (env : Texture3DEnv) (t : Texture3D) (level : Nat)
    (x y z width height depth : Int) (data : Nat)
    (hc : env.isCompressed = true)
    (hx : isI32 x) (hy : isI32 y) (hw1 : width ≤ 2147483644) (hh1 : height ≤ 2147483644)
    (hacc : (t.SetData_D3D11 env level x y z width height depth data).1 = true) :
    (4 ∣ alignDown4 x ∧ 4 ∣ alignDown4 y ∧ 4 ∣ alignUp4 width ∧ 4 ∣ alignUp4 height)
      ∧ (alignDown4 x ≤ x ∧ alignDown4 y ≤ y ∧ width ≤ alignUp4 width ∧ height ≤ alignUp4 height)
      ∧ (4 ∣ x → alignDown4 x = x ∧ alignDown4 x + alignUp4 width ≥ x + width)
      ∧ (4 ∣ y → alignDown4 y = y ∧ alignDown4 y + alignUp4 height ≥ y + height)
      ∧ (t.usage_ ≠ TextureUsage.TEXTURE_DYNAMIC →
          (t.SetData_D3D11 env level x y z width height depth data).2
            = [GpuWrite.updateSubresource (D3D11CalcSubresource level 0 t.levels_)
                (toU32 (alignDown4 x)) (toU32 (wrapI32 (alignDown4 x + alignUp4 width)))
                (toU32 (alignDown4 y)) (toU32 (wrapI32 (alignDown4 y + alignUp4 height)))
                (toU32 z) (toU32 (wrapI32 (z + depth)))
                (env.rowDataSize (alignUp4 width))
                (wrapU32 (toU32 (wrapI32 (env.levelHeight level + 3) / 4)
                  * env.rowDataSize (alignUp4 width)))])
      ∧ (t.usage_ = TextureUsage.TEXTURE_DYNAMIC → ∀ m, env.mapped = some m →
          (t.SetData_D3D11 env level x y z width height depth data).2
            = dynamicCopies m (alignDown4 y / 4) z (wrapI32 (alignUp4 height + 3) / 4) depth
                (env.rowDataSize (alignDown4 x)) (env.rowDataSize (alignUp4 width))) := by
  obtain ⟨_, _, _, hbox⟩ := texture3D_setData_accepted env t level x y z width height depth
    data hacc
  unfold isI32 at hx hy
  obtain ⟨b1, b2, b3, b4⟩ := alignment_bounds x y width height (by omega) hx.2 (by omega) hy.2
    (by omega) hw1 (by omega) hh1
  exact ⟨b1, b2, b3, b4,
    fun hu => texture3D_setData_compressed_box env t level x y z width height depth data hc hu hacc,
    fun hu m hm => texture3D_setData_compressed_copies env t level x y z width height depth data
      m hc hu hm hacc⟩

/-- Witness for C18: on a static and on a dynamic compressed 8x8x8 texture the
request `x = 4, y = 0, width = 2, height = 2` of a small mip level is carried
out on the block `4 .. 8`, `0 .. 4`. -/
theorem texture3D_block_alignment_witness :
    ((sampleTexture3D.SetData_D3D11 sampleCompressedEnv 0 4 0 0 2 2 1 1).1 = true
        ∧ (sampleTexture3D.SetData_D3D11 sampleCompressedEnv 0 4 0 0 2 2 1 1).2
          = [GpuWrite.updateSubresource 0 4 8 0 4 0 1 8 16])
      ∧ ((sampleDynamicTexture3D.SetData_D3D11 sampleCompressedDynamicEnv 0 4 0 0 2 2 1 1).1 = true
        ∧ (sampleDynamicTexture3D.SetData_D3D11 sampleCompressedDynamicEnv 0 4 0 0 2 2 1 1).2
          = [GpuWrite.memcpy 8 0 8]) :=
  ⟨⟨by decide, (texture3D_block_alignment sampleCompressedEnv sampleTexture3D 0 4 0 0 2 2 1 1 rfl
      (by decide) (by decide) (by decide) (by decide) (by decide)).2.2.2.2.1 (by decide)⟩,
   ⟨by decide, (texture3D_block_alignment sampleCompressedDynamicEnv sampleDynamicTexture3D 0 4 0
      0 2 2 1 1 rfl (by decide) (by decide) (by decide) (by decide) (by decide)).2.2.2.2.2 rfl
      _ rfl⟩⟩

/-! ### Log -/

/-- C13: on the main thread `Log::Write(level, message)` with
`level != LOG_RAW` emits the message exactly when
`LOG_TRACE <= level < LOG_NONE`, a log instance exists, its `level_ <= level`
and `inWrite_` is false. It then sets `lastMessage_` to the message and sends
one `E_LOGMESSAGE` event whose text is the level prefix (`TRACE`, `DEBUG`,
`INFO`, `WARNING` or `ERROR`), `": "` and the message, preceded by
`"[timestamp] "` when `timeStamp_` is set; in every other case the log state is
unchanged and nothing is emitted. -/
theorem log_write_main_thread (env : LogEnv) (level : Int) (message : String) (w : LogWorld)
    (hmain : env.isMainThread = true) (hraw : level ≠ LOG_RAW) :
    (∀ l, w.logInstance = some l → LOG_TRACE ≤ level → level < LOG_NONE → l.level_ ≤ level →
        l.inWrite_ = false →
        (Log.Write env level message w).events = w.events ++
            [{ message := (if l.timeStamp_ then
                  "[" ++ env.timeStamp ++ "] " ++ (levelPrefix level ++ (": " ++ message))
                else levelPrefix level ++ (": " ++ message)),
               level := level }]
          ∧ (Log.Write env level message w).logInstance
            = some { l with lastMessage_ := message,
                            logFile_ := l.logFile_.map fun written => written ++
                              [(if l.timeStamp_ then
                                  "[" ++ env.timeStamp ++ "] " ++ (levelPrefix level ++ (": " ++ message))
                                else levelPrefix level ++ (": " ++ message)) ++ "\n"] })
      ∧ (¬ (LOG_TRACE ≤ level ∧ level < LOG_NONE
            ∧ ∃ l, w.logInstance = some l ∧ l.level_ ≤ level ∧ l.inWrite_ = false) →
          Log.Write env level message w = w)
      ∧ ((Log.Write env level message w).events ≠ w.events ↔
          (LOG_TRACE ≤ level ∧ level < LOG_NONE
            ∧ ∃ l, w.logInstance = some l ∧ l.level_ ≤ level ∧ l.inWrite_ = false))
      ∧ (levelPrefix LOG_TRACE = "TRACE" ∧ levelPrefix LOG_DEBUG = "DEBUG"
          ∧ levelPrefix LOG_INFO = "INFO" ∧ levelPrefix LOG_WARNING = "WARNING"
          ∧ levelPrefix LOG_ERROR = "ERROR") := by
  have hemit : ∀ l, w.logInstance = some l → LOG_TRACE ≤ level → level < LOG_NONE →
      l.level_ ≤ level → l.inWrite_ = false →
      (Log.Write env level message w).events = w.events ++
            [{ message := (if l.timeStamp_ then
                  "[" ++ env.timeStamp ++ "] " ++ (levelPrefix level ++ (": " ++ message))
                else levelPrefix level ++ (": " ++ message)),
               level := level }]
          ∧ (Log.Write env level message w).logInstance
            = some { l with lastMessage_ := message,
                            logFile_ := l.logFile_.map fun written => written ++
                              [(if l.timeStamp_ then
                                  "[" ++ env.timeStamp ++ "] " ++ (levelPrefix level ++ (": " ++ message))
                                else levelPrefix level ++ (": " ++ message)) ++ "\n"] } := by
    intro l hl h0 h1 h2 h3
    have hlev : ¬ (level < LOG_TRACE ∨ level ≥ LOG_NONE) := by omega
    have hpass : ¬ (l.level_ > level ∨ l.inWrite_ = true) := by
      rw [h3]
      simp
      exact h2
    unfold Log.Write
    rw [if_neg hraw, if_neg hlev]
    simp only [hmain, Bool.not_true, Bool.false_eq_true, if_false, hl, hpass]
    cases hf : l.logFile_ <;> simp [hf, h3]
  have hskip : ¬ (LOG_TRACE ≤ level ∧ level < LOG_NONE
        ∧ ∃ l, w.logInstance = some l ∧ l.level_ ≤ level ∧ l.inWrite_ = false) →
      Log.Write env level message w = w := by
    intro hn
    unfold Log.Write
    rw [if_neg hraw]
    by_cases hlev : level < LOG_TRACE ∨ level ≥ LOG_NONE
    · rw [if_pos hlev]
    · rw [if_neg hlev]
      simp only [hmain, Bool.not_true, Bool.false_eq_true, if_false]
      cases hl : w.logInstance with
      | none => rfl
      | some l =>
        simp only
        have hblock : l.level_ > level ∨ l.inWrite_ = true := by
          by_contra hc
          apply hn
          refine ⟨by omega, by omega, l, hl, by omega, ?_⟩
          cases hw : l.inWrite_
          · rfl
          · exact absurd (Or.inr hw) hc
        rw [if_pos hblock]
  refine ⟨hemit, hskip, ?_, by decide⟩
  constructor
  · intro hne
    by_contra hn
    exact hne (by rw [hskip hn])
  · rintro ⟨h0, h1, l, hl, h2, h3⟩
    rw [(hemit l hl h0 h1 h2 h3).1]
    simp

/-- Witness for C13: a warning written to the sample log on the main thread
at time stamp `Mon` is sent as the event `[Mon] WARNING: disk full`, and
without time stamps an error as `ERROR: disk full`. -/
theorem log_write_main_thread_witness :
    (Log.Write { isMainThread := true, timeStamp := "Mon" } LOG_WARNING "disk full"
        sampleLogWorld).events
        = [{ message := "[Mon] WARNING: disk full", level := LOG_WARNING }]
      ∧ (Log.Write { isMainThread := true, timeStamp := "Mon" } LOG_WARNING "disk full"
          sampleLogWorld).logInstance
        = some { level_ := LOG_INFO, timeStamp_ := true, inWrite_ := false, quiet_ := false,
                 lastMessage_ := "disk full", logFile_ := none, threadMessages_ := [] }
      ∧ (Log.Write { isMainThread := true, timeStamp := "Mon" } LOG_ERROR "disk full"
          sampleQuietLogWorld).events
        = [{ message := "ERROR: disk full", level := LOG_ERROR }]
      ∧ Log.Write { isMainThread := true, timeStamp := "Mon" } LOG_DEBUG "disk full"
          sampleLogWorld = sampleLogWorld :=
  ⟨((log_write_main_thread { isMainThread := true, timeStamp := "Mon" } LOG_WARNING "disk full"
      sampleLogWorld rfl (by decide)).1 _ rfl (by decide) (by decide) (by decide) rfl).1,
   ((log_write_main_thread { isMainThread := true, timeStamp := "Mon" } LOG_WARNING "disk full"
      sampleLogWorld rfl (by decide)).1 _ rfl (by decide) (by decide) (by decide) rfl).2,
   ((log_write_main_thread { isMainThread := true, timeStamp := "Mon" } LOG_ERROR "disk full"
      sampleQuietLogWorld rfl (by decide)).1 _ rfl (by decide) (by decide) (by decide) rfl).1,
   (log_write_main_thread { isMainThread := true, timeStamp := "Mon" } LOG_DEBUG "disk full"
      sampleLogWorld rfl (by decide)).2.1 (by decide)⟩

/-- Replacing the queue twice keeps the last replacement. -/
theorem setQueue_setQueue (w : LogWorld) (q r : List StoredLogMessage) :
    (w.setQueue q).setQueue r = w.setQueue r := by
  obtain ⟨inst, ted, pr, ev⟩ := w
  cases inst <;> rfl

/-- Replacing the queue by itself changes nothing. -/
theorem setQueue_queue (w : LogWorld) : w.setQueue w.queue = w := by
  obtain ⟨inst, ted, pr, ev⟩ := w
  cases inst <;> rfl

/-- The queue after a replacement, for a world with a log instance. -/
theorem queue_setQueue (w : LogWorld) (l : Log) (h : w.logInstance = some l)
    (q : List StoredLogMessage) : (w.setQueue q).queue = q := by
  obtain ⟨inst, ted, pr, ev⟩ := w
  simp only at h
  subst h
  rfl

/-- On the main thread `WriteRaw` neither reads nor changes the queue of stored
messages. -/
theorem writeRaw_setQueue (env : LogEnv) (hmain : env.isMainThread = true)
    (message : String) (error : Bool) (w : LogWorld) (q : List StoredLogMessage) :
    Log.WriteRaw env message error (w.setQueue q)
      = (Log.WriteRaw env message error w).setQueue q := by
  obtain ⟨inst, ted, pr, ev⟩ := w
  unfold Log.WriteRaw
  rw [hmain]
  cases inst with
  | none => rfl
  | some l =>
    obtain ⟨lv, ts, iw, qt, lm, lf, tm⟩ := l
    cases iw <;> cases lf <;> rfl

/-- On the main thread `Write` neither reads nor changes the queue of stored
messages. -/
theorem write_setQueue (env : LogEnv) (hmain : env.isMainThread = true)
    (level : Int) (message : String) (w : LogWorld) (q : List StoredLogMessage) :
    Log.Write env level message (w.setQueue q)
      = (Log.Write env level message w).setQueue q := by
  unfold Log.Write
  by_cases hraw : level = LOG_RAW
  · rw [if_pos hraw, if_pos hraw]
    exact writeRaw_setQueue env hmain message false w q
  · rw [if_neg hraw, if_neg hraw]
    by_cases hlev : level < LOG_TRACE ∨ level ≥ LOG_NONE
    · rw [if_pos hlev, if_pos hlev]
    · rw [if_neg hlev, if_neg hlev, hmain]
      obtain ⟨inst, ted, pr, ev⟩ := w
      cases inst with
      | none => rfl
      | some l =>
        obtain ⟨lv, ts, iw, qt, lm, lf, tm⟩ := l
        by_cases hgate : lv > level ∨ iw = true
        · simp only [LogWorld.setQueue, Bool.not_true, Bool.false_eq_true, if_false, if_pos hgate]
        · simp only [LogWorld.setQueue, Bool.not_true, Bool.false_eq_true, if_false, if_neg hgate]
          cases lf <;> rfl

/-- On the main thread delivering a stored message commutes with replacing the
queue. -/
theorem deliver_setQueue (env : LogEnv) (hmain : env.isMainThread = true)
    (stored : StoredLogMessage) (w : LogWorld) (q : List StoredLogMessage) :
    Log.deliver env stored (w.setQueue q) = (Log.deliver env stored w).setQueue q := by
  unfold Log.deliver
  split_ifs
  · exact write_setQueue env hmain _ _ w q
  · exact writeRaw_setQueue env hmain _ _ w q

/-- Storing a message keeps the level of the log and appends to its queue. -/
theorem store_level_queue (w : LogWorld) (stored : StoredLogMessage) :
    (w.store stored).level = w.level
      ∧ (w.store stored).queue = (if w.logInstance.isSome then w.queue ++ [stored] else []) := by
  obtain ⟨inst, ted, pr, ev⟩ := w
  cases inst <;> exact ⟨rfl, rfl⟩

/-- The function `WriteRaw` never changes `level_`, and on the main thread it
keeps the queue of stored messages. -/
theorem writeRaw_level_queue (env : LogEnv) (message : String) (error : Bool) (w : LogWorld) :
    (Log.WriteRaw env message error w).level = w.level
      ∧ (env.isMainThread = true → (Log.WriteRaw env message error w).queue = w.queue) := by
  unfold Log.WriteRaw
  cases hm : env.isMainThread with
  | false =>
    simp only [Bool.not_false, if_true]
    exact ⟨(store_level_queue w _).1, fun h => absurd h (by simp)⟩
  | true =>
    obtain ⟨inst, ted, pr, ev⟩ := w
    cases inst with
    | none => exact ⟨rfl, fun _ => rfl⟩
    | some l =>
      obtain ⟨lv, ts, iw, qt, lm, lf, tm⟩ := l
      cases iw <;> cases lf <;> exact ⟨rfl, fun _ => rfl⟩

/-- The function `Write` never changes `level_`, and on the main thread it
keeps the queue of stored messages. -/
theorem write_level_queue (env : LogEnv) (level : Int) (message : String) (w : LogWorld) :
    (Log.Write env level message w).level = w.level
      ∧ (env.isMainThread = true → (Log.Write env level message w).queue = w.queue) := by
  unfold Log.Write
  by_cases hraw : level = LOG_RAW
  · rw [if_pos hraw]
    exact writeRaw_level_queue env message false w
  · rw [if_neg hraw]
    by_cases hlev : level < LOG_TRACE ∨ level ≥ LOG_NONE
    · rw [if_pos hlev]
      exact ⟨rfl, fun _ => rfl⟩
    · rw [if_neg hlev]
      cases hm : env.isMainThread with
      | false =>
        simp only [Bool.not_false, if_true]
        exact ⟨(store_level_queue w _).1, fun h => absurd h (by simp)⟩
      | true =>
        obtain ⟨inst, ted, pr, ev⟩ := w
        cases inst with
        | none => exact ⟨rfl, fun _ => rfl⟩
        | some l =>
          obtain ⟨lv, ts, iw, qt, lm, lf, tm⟩ := l
          by_cases hgate : lv > level ∨ iw = true
          · simp only [Bool.not_true, Bool.false_eq_true, if_false, if_pos hgate]
            exact ⟨trivial, fun _ => trivial⟩
          · simp only [Bool.not_true, Bool.false_eq_true, if_false, if_neg hgate]
            cases lf <;> exact ⟨rfl, fun _ => rfl⟩

/-- On the main thread delivering a stored message keeps the queue. -/
theorem deliver_queue (env : LogEnv) (hmain : env.isMainThread = true)
    (stored : StoredLogMessage) (w : LogWorld) :
    (Log.deliver env stored w).queue = w.queue := by
  unfold Log.deliver
  split_ifs
  · exact (write_level_queue env _ _ w).2 hmain
  · exact (writeRaw_level_queue env _ _ w).2 hmain

/-- Popping the front of the queue, written as a queue replacement. -/
theorem popFront_eq (w : LogWorld) : w.popFront = w.setQueue w.queue.tail := by
  obtain ⟨inst, ted, pr, ev⟩ := w
  cases inst <;> rfl

/-- Delivering a list of messages commutes with replacing the queue. -/
theorem foldl_deliver_setQueue (env : LogEnv) (hmain : env.isMainThread = true)
    (ms : List StoredLogMessage) (w : LogWorld) (q : List StoredLogMessage) :
    ms.foldl (fun v stored => Log.deliver env stored v) (w.setQueue q)
      = (ms.foldl (fun v stored => Log.deliver env stored v) w).setQueue q := by
  induction ms generalizing w with
  | nil => rfl
  | cons m ms ih =>
    simp only [List.foldl_cons]
    rw [deliver_setQueue env hmain, ih]

/-- The queue after a replacement is the new queue or, without log instance,
empty. -/
theorem queue_setQueue_le (w : LogWorld) (q : List StoredLogMessage) :
    (w.setQueue q).queue = q ∨ ((w.setQueue q).queue = [] ∧ w.queue = []) := by
  obtain ⟨inst, ted, pr, ev⟩ := w
  cases inst
  · exact Or.inr ⟨rfl, rfl⟩
  · exact Or.inl rfl

/-- The loop of `HandleEndFrame` delivers the stored messages front to back and
ends with an empty queue, given one unit of fuel per stored message. -/
theorem processMessages_eq (env : LogEnv) (hmain : env.isMainThread = true) (fuel : Nat)
    (w : LogWorld) (hfuel : w.queue.length ≤ fuel) :
    Log.processMessages env fuel w
      = (w.queue.foldl (fun v stored => Log.deliver env stored v) w).setQueue [] := by
  induction fuel generalizing w with
  | zero =>
    have hq : w.queue = [] := List.length_eq_zero.mp (Nat.le_zero.mp hfuel)
    rw [hq]
    simp only [Log.processMessages, List.foldl_nil]
    rw [← hq, setQueue_queue]
  | succ fuel ih =>
    obtain ⟨inst, ted, pr, ev⟩ := w
    cases inst with
    | none => rfl
    | some l =>
      obtain ⟨lv, ts, iw, qt, lm, lf, tm⟩ := l
      cases tm with
      | nil => rfl
      | cons stored rest =>
        simp only [Log.processMessages, LogWorld.queue, List.foldl_cons]
        rw [popFront_eq, deliver_queue env hmain]
        simp only [LogWorld.queue, List.tail_cons]
        have hlen : ((Log.deliver env stored
            { logInstance := some { level_ := lv, timeStamp_ := ts, inWrite_ := iw, quiet_ := qt,
                                    lastMessage_ := lm, logFile_ := lf,
                                    threadMessages_ := stored :: rest },
              threadErrorDisplayed := ted, printed := pr, events := ev }).setQueue rest).queue.length
            ≤ fuel := by
          rcases queue_setQueue_le (Log.deliver env stored
            { logInstance := some { level_ := lv, timeStamp_ := ts, inWrite_ := iw, quiet_ := qt,
                                    lastMessage_ := lm, logFile_ := lf,
                                    threadMessages_ := stored :: rest },
              threadErrorDisplayed := ted, printed := pr, events := ev }) rest with h | h
          · rw [h]
            simp only [LogWorld.queue, List.length_cons] at hfuel
            omega
          · rw [h.1]
            simp
        rw [ih _ hlen]
        rcases queue_setQueue_le (Log.deliver env stored
            { logInstance := some { level_ := lv, timeStamp_ := ts, inWrite_ := iw, quiet_ := qt,
                                    lastMessage_ := lm, logFile_ := lf,
                                    threadMessages_ := stored :: rest },
              threadErrorDisplayed := ted, printed := pr, events := ev }) rest with h | h
        · rw [h, foldl_deliver_setQueue env hmain, setQueue_setQueue]
        · have hq := h.2
          rw [deliver_queue env hmain] at hq
          simp [LogWorld.queue] at hq

/-- Counterexample for C14: off the main thread, `Write` with the level
`LOG_NONE` (or any level outside `LOG_TRACE .. LOG_ERROR` other than `LOG_RAW`)
stores nothing: the queue of the sample log stays empty. -/
theorem log_write_off_thread_drops_illegal_level :
    Log.Write { isMainThread := false, timeStamp := "Mon" } LOG_NONE "late" sampleLogWorld
        = sampleLogWorld
      ∧ (Log.Write { isMainThread := false, timeStamp := "Mon" } LOG_NONE "late"
          sampleLogWorld).queue = []
      ∧ (Log.Write { isMainThread := false, timeStamp := "Mon" } 7 "late" sampleLogWorld).queue
          = [] := by
  decide

/-- C14 (amended): with a log instance present, every `Log::WriteRaw` call and
every `Log::Write` call whose level is `LOG_RAW` or lies in
`[LOG_TRACE, LOG_NONE)`, made while `Thread::IsMainThread()` is false, appends
exactly one `StoredLogMessage` (message, level, error flag) to the end of
`threadMessages_` and changes and emits nothing else. A later
`Log::HandleEndFrame` on the main thread passes every stored message once, in
queue order, to `Write` (with its stored level) or, for `LOG_RAW`, to
`WriteRaw` (with its stored error flag) and leaves `threadMessages_` empty;
called off the main thread it leaves the queue untouched. -/
theorem log_thread_messages (ts : String) (w : LogWorld) (l : Log)
    (hl : w.logInstance = some l) (level : Int) (message : String) (error : Bool) (fuel : Nat) :
    ((level = LOG_RAW ∨ (LOG_TRACE ≤ level ∧ level < LOG_NONE)) →
        Log.Write { isMainThread := false, timeStamp := ts } level message w
          = w.setQueue (l.threadMessages_ ++
              [{ message_ := message, level_ := level, error_ := false }]))
      ∧ Log.WriteRaw { isMainThread := false, timeStamp := ts } message error w
          = w.setQueue (l.threadMessages_ ++
              [{ message_ := message, level_ := LOG_RAW, error_ := error }])
      ∧ (l.threadMessages_.length ≤ fuel →
          Log.HandleEndFrame { isMainThread := true, timeStamp := ts } fuel w
              = (l.threadMessages_.foldl
                  (fun v stored =>
                    if stored.level_ ≠ LOG_RAW then
                      Log.Write { isMainThread := true, timeStamp := ts } stored.level_
                        stored.message_ v
                    else
                      Log.WriteRaw { isMainThread := true, timeStamp := ts } stored.message_
                        stored.error_ v)
                  w).setQueue []
            ∧ (Log.HandleEndFrame { isMainThread := true, timeStamp := ts } fuel w).queue = [])
      ∧ (Log.HandleEndFrame { isMainThread := false, timeStamp := ts } fuel w).queue
          = l.threadMessages_ := by
  obtain ⟨inst, ted, pr, ev⟩ := w
  simp only at hl
  subst hl
  have hraw : Log.WriteRaw { isMainThread := false, timeStamp := ts } message error
      { logInstance := some l, threadErrorDisplayed := ted, printed := pr, events := ev }
        = LogWorld.setQueue
            { logInstance := some l, threadErrorDisplayed := ted, printed := pr, events := ev }
            (l.threadMessages_ ++ [{ message_ := message, level_ := LOG_RAW, error_ := error }]) :=
    rfl
  refine ⟨?_, hraw, ?_, ?_⟩
  · intro hlevel
    unfold Log.Write
    by_cases hr : level = LOG_RAW
    · rw [if_pos hr]
      subst hr
      rfl
    · rw [if_neg hr]
      have hlev : ¬ (level < LOG_TRACE ∨ level ≥ LOG_NONE) := by
        rcases hlevel with h | h
        · exact absurd h hr
        · omega
      rw [if_neg hlev]
      rfl
  · intro hfuel
    have heq := processMessages_eq { isMainThread := true, timeStamp := ts } rfl fuel
      { logInstance := some l, threadErrorDisplayed := ted, printed := pr, events := ev } hfuel
    have hrun : Log.HandleEndFrame { isMainThread := true, timeStamp := ts } fuel
        { logInstance := some l, threadErrorDisplayed := ted, printed := pr, events := ev }
        = Log.processMessages { isMainThread := true, timeStamp := ts } fuel
          { logInstance := some l, threadErrorDisplayed := ted, printed := pr, events := ev } := rfl
    rw [hrun, heq]
    refine ⟨rfl, ?_⟩
    rcases queue_setQueue_le (List.foldl
      (fun v stored => Log.deliver { isMainThread := true, timeStamp := ts } stored v)
      { logInstance := some l, threadErrorDisplayed := ted, printed := pr, events := ev }
      (LogWorld.queue
        { logInstance := some l, threadErrorDisplayed := ted, printed := pr, events := ev }))
      [] with h | h
    · exact h
    · exact h.1
  · unfold Log.HandleEndFrame
    cases ted <;> rfl

/-- Witness for C14: a warning and then a raw error text written off the main
thread are queued in that order, and `HandleEndFrame` on the main thread sends
them in that order (the warning formatted by `Write`, the raw text by
`WriteRaw` to the error stream) and empties the queue. -/
theorem log_thread_messages_witness :
    Log.Write { isMainThread := false, timeStamp := "Mon" } LOG_WARNING "a" sampleLogWorld
        = sampleLogWorld.setQueue [{ message_ := "a", level_ := LOG_WARNING, error_ := false }]
      ∧ Log.WriteRaw { isMainThread := false, timeStamp := "Mon" } "b" true
          (sampleLogWorld.setQueue [{ message_ := "a", level_ := LOG_WARNING, error_ := false }])
        = sampleQueuedLogWorld
      ∧ Log.HandleEndFrame { isMainThread := true, timeStamp := "Mon" } 2 sampleQueuedLogWorld
        = { logInstance := some { level_ := LOG_INFO, timeStamp_ := true, inWrite_ := false,
                                  quiet_ := false, lastMessage_ := "b", logFile_ := none,
                                  threadMessages_ := [] },
            threadErrorDisplayed := false,
            printed := [("[Mon] WARNING: a\n", false), ("b", true)],
            events := [{ message := "[Mon] WARNING: a", level := LOG_WARNING },
                       { message := "b", level := LOG_ERROR }] }
      ∧ (Log.HandleEndFrame { isMainThread := false, timeStamp := "Mon" } 2
          sampleQueuedLogWorld).queue
        = [{ message_ := "a", level_ := LOG_WARNING, error_ := false },
           { message_ := "b", level_ := LOG_RAW, error_ := true }] :=
  ⟨(log_thread_messages "Mon" sampleLogWorld _ rfl LOG_WARNING "a" false 0).1
      (Or.inr (by decide)),
   (log_thread_messages "Mon"
      (sampleLogWorld.setQueue [{ message_ := "a", level_ := LOG_WARNING, error_ := false }])
      _ rfl LOG_WARNING "b" true 0).2.1,
   ((log_thread_messages "Mon" sampleQueuedLogWorld _ rfl LOG_WARNING "a" false 2).2.2.1
      (by decide)).1,
   (log_thread_messages "Mon" sampleQueuedLogWorld _ rfl LOG_WARNING "a" false 2).2.2.2⟩

/-- C15: `Log::SetLevel(level)` leaves `level_` unchanged for every level with
`level < LOG_TRACE` or `level > LOG_NONE`, and sets `level_` to exactly `level`
for every level in `[LOG_TRACE, LOG_NONE]`. -/
theorem log_setLevel (env : LogEnv) (w : LogWorld) (l : Log) (hl : w.logInstance = some l)
    (level : Int) :
    ((level < LOG_TRACE ∨ level > LOG_NONE) → (Log.SetLevel env level w).level = some l.level_)
      ∧ ((LOG_TRACE ≤ level ∧ level ≤ LOG_NONE) → (Log.SetLevel env level w).level = some level) := by
  have hwl : w.level = some l.level_ := by
    unfold LogWorld.level
    rw [hl]
    rfl
  constructor
  · intro hbad
    unfold Log.SetLevel
    rw [hl]
    simp only [if_pos hbad]
    unfold Log.WriteFormat
    rw [hl]
    simp only
    split_ifs
    · exact hwl
    · rw [(write_level_queue env _ _ w).1]
      exact hwl
  · intro hok
    have hnot : ¬ (level < LOG_TRACE ∨ level > LOG_NONE) := by omega
    unfold Log.SetLevel
    rw [hl]
    simp only [if_neg hnot]
    rfl

/-- Witness for C15: the sample log rejects level 9 and accepts `LOG_NONE`. -/
theorem log_setLevel_witness :
    sampleLogWorld.logInstance = some { level_ := LOG_INFO, timeStamp_ := true, inWrite_ := false,
                                        quiet_ := false, lastMessage_ := "", logFile_ := none,
                                        threadMessages_ := [] }
      ∧ ((9 < LOG_TRACE ∨ 9 > LOG_NONE) →
          (Log.SetLevel { isMainThread := true, timeStamp := "Mon" } 9 sampleLogWorld).level
            = some LOG_INFO) :=
  ⟨rfl, (log_setLevel { isMainThread := true, timeStamp := "Mon" } sampleLogWorld _ rfl 9).1⟩

/-! ### Font faces -/

/-- The fixed-point key of point size 0 is 0. -/
theorem floatToFixed_zero : FloatToFixed 0 = 0 := by
  simp [FloatToFixed, roundToZero]

/-- A value assigned under a key is what a lookup of that key finds. -/
theorem hashFind_hashSet_self {κ β : Type} [DecidableEq κ] (m : List (κ × β)) (key : κ)
    (value : β) : hashFind (hashSet m key value) key = some value := by
  unfold hashSet
  split_ifs with h
  · induction m with
    | nil => simp at h
    | cons e m ih =>
      by_cases he : e.1 = key
      · simp [hashFind, he]
      · have h2 : m.any (fun e => decide (e.1 = key)) = true := by
          simpa [he] using h
        have hstep : hashFind (List.map (fun e => if e.1 = key then (key, value) else e) (e :: m)) key
            = hashFind (List.map (fun e => if e.1 = key then (key, value) else e) m) key := by
          simp [hashFind, he]
        rw [hstep]
        exact ih h2
  · have hnone : (m.find? fun e => decide (e.1 = key)) = none := by
      rw [List.find?_eq_none]
      intro e he
      have hany : m.any (fun e => decide (e.1 = key)) = false := by
        cases hb : m.any (fun e => decide (e.1 = key))
        · rfl
        · exact absurd hb h
      exact (by simpa using List.any_eq_false.mp hany e he)
    simp [hashFind, List.find?_append, hnone]

/-- For a bitmap font with graphics present, a face returned by `GetFace` is
the one stored under key 0 afterwards, and the font is still a bitmap font. -/
theorem font_getFace_bitmap_cached (env : FontEnv) (f : Font) (p : Rat) (face : Nat)
    (hb : f.fontType_ = FontType.FONT_BITMAP) (hg : env.graphics = true)
    (h1 : (f.GetFace env p).2 = some face) :
    hashFind (f.GetFace env p).1.faces_ 0 = some face
      ∧ (f.GetFace env p).1.fontType_ = FontType.FONT_BITMAP := by
  rcases hG : f.GetFace env p with ⟨g, r⟩
  rw [hG] at h1
  simp only at h1 ⊢
  subst h1
  unfold Font.GetFace at hG
  simp only [hg, hb, Bool.not_true, Bool.false_eq_true, if_false, if_true,
    floatToFixed_zero] at hG
  cases hf : hashFind f.faces_ 0 with
  | some face0 =>
    simp only [hf] at hG
    cases hl : env.isDataLost face0 with
    | false =>
      simp only [hl, Bool.not_false, if_true, Prod.mk.injEq, Option.some.injEq] at hG
      obtain ⟨rfl, rfl⟩ := hG
      exact ⟨hf, hb⟩
    | true =>
      simp only [hl, Bool.not_true, Bool.false_eq_true, if_false, Font.loadFace, hb,
        Font.GetFaceBitmap] at hG
      cases hload : env.loadBitmap 0 with
      | none => simp [hload] at hG
      | some nf =>
        simp only [hload, Prod.mk.injEq, Option.some.injEq, floatToFixed_zero] at hG
        obtain ⟨rfl, rfl⟩ := hG
        exact ⟨hashFind_hashSet_self _ _ _, rfl⟩
  | none =>
    simp only [hf, Font.loadFace, hb, Font.GetFaceBitmap] at hG
    cases hload : env.loadBitmap 0 with
    | none => simp [hload] at hG
    | some nf =>
      simp only [hload, Prod.mk.injEq, Option.some.injEq, floatToFixed_zero] at hG
      obtain ⟨rfl, rfl⟩ := hG
      exact ⟨hashFind_hashSet_self _ _ _, rfl⟩

/-- For a bitmap font with graphics present, `GetFace` returns the face stored
under key 0 when its data is not lost, whatever point size is requested. -/
theorem font_getFace_bitmap_hit (env : FontEnv) (g : Font) (q : Rat) (face : Nat)
    (hb : g.fontType_ = FontType.FONT_BITMAP) (hg : env.graphics = true)
    (hfind : hashFind g.faces_ 0 = some face) (hlost : env.isDataLost face = false) :
    g.GetFace env q = (g, some face) := by
  unfold Font.GetFace
  simp only [hg, hb, Bool.not_true, Bool.false_eq_true, if_false, if_true,
    floatToFixed_zero, hfind, hlost, Bool.not_false]

/-- C16: for a font of type `FONT_BITMAP` with the graphics subsystem present,
`GetFace` ignores the requested point size and uses cache key 0: when
`GetFace(p)` returned a face and that face's data is not lost, the face is
stored under key 0 and `GetFace(q)` returns the same face object for any `q`,
leaving the font as it is. -/
theorem font_getFace_bitmap_same_face (env1 env2 : FontEnv) (f : Font) (p q : Rat) (face : Nat)
    (hb : f.fontType_ = FontType.FONT_BITMAP)
    (hg1 : env1.graphics = true) (hg2 : env2.graphics = true)
    (h1 : (f.GetFace env1 p).2 = some face)
    (hlost : env2.isDataLost face = false) :
    hashFind (f.GetFace env1 p).1.faces_ 0 = some face
      ∧ ((f.GetFace env1 p).1.GetFace env2 q).2 = some face
      ∧ ((f.GetFace env1 p).1.GetFace env2 q).1 = (f.GetFace env1 p).1 := by
  obtain ⟨hfind, hbit⟩ := font_getFace_bitmap_cached env1 f p face hb hg1 h1
  rw [font_getFace_bitmap_hit env2 _ q face hbit hg2 hfind hlost]
  exact ⟨hfind, rfl, rfl⟩

/-- Witness for C16: point sizes 12 and 30 on the sample bitmap font. -/
theorem font_getFace_bitmap_same_face_witness :
    (sampleFont.GetFace sampleFontEnv 12).2 = some 40
      ∧ ((sampleFont.GetFace sampleFontEnv 12).1.GetFace sampleFontEnv 30).2 = some 40 :=
  have h : (sampleFont.GetFace sampleFontEnv 12).2 = some 40 := by
    simp [Font.GetFace, Font.loadFace, Font.GetFaceBitmap, sampleFont, sampleFontEnv, hashFind]
  ⟨h, (font_getFace_bitmap_same_face sampleFontEnv sampleFontEnv sampleFont 12 30 40 rfl rfl rfl
    h rfl).2.1⟩

/-! ### Constant-buffer sizes of a shader variation -/

/-- One loop step keeps the number of parameter groups. -/
theorem constantBufferStep_length (sizes : List Nat) (e : Nat × ShaderParameter) :
    (constantBufferStep sizes e).length = sizes.length := by
  unfold constantBufferStep
  split_ifs <;> simp

/-- One loop step raises the size of the parameter's own group to the end of
the parameter, if that is larger, and leaves the other groups alone. -/
theorem constantBufferStep_getD (sizes : List Nat) (e : Nat × ShaderParameter) (g : Nat)
    (hg : g < sizes.length) :
    (constantBufferStep sizes e).getD g 0
      = if e.2.buffer_ = g then max (sizes.getD g 0) e.2.paramEnd else sizes.getD g 0 := by
  unfold constantBufferStep
  by_cases hb : e.2.buffer_ = g
  · subst hb
    simp only [hg, if_true]
    split_ifs with hgt
    · rw [List.getD_eq_getElem?_getD, List.getElem?_set_self hg]
      simp only [Option.getD_some]
      omega
    · omega
  · simp only [hb, if_false]
    split_ifs
    · rw [List.getD_eq_getElem?_getD, List.getD_eq_getElem?_getD, List.getElem?_set_ne hb]
    · rfl
    · rfl

/-- The loop over the parameters computes, for every group, the largest
parameter end of that group above the starting value. -/
theorem foldl_constantBufferStep (ps : List (Nat × ShaderParameter)) (sizes : List Nat) :
    (ps.foldl constantBufferStep sizes).length = sizes.length
      ∧ ∀ g, g < sizes.length →
          (ps.foldl constantBufferStep sizes).getD g 0 = maxParamEnd (sizes.getD g 0) ps g := by
  induction ps generalizing sizes with
  | nil => exact ⟨rfl, fun _ _ => rfl⟩
  | cons e ps ih =>
    obtain ⟨hlen, hget⟩ := ih (constantBufferStep sizes e)
    simp only [List.foldl_cons]
    refine ⟨by rw [hlen, constantBufferStep_length], ?_⟩
    intro g hg
    rw [hget g (by rw [constantBufferStep_length]; exact hg), constantBufferStep_getD sizes e g hg]
    unfold maxParamEnd
    by_cases hb : e.2.buffer_ = g
    · simp [hb]
    · simp [hb]

/-- The maximum is at least its starting value and at least every parameter
end of the group, and it is the starting value or one of those ends. -/
theorem maxParamEnd_spec (init : Nat) (ps : List (Nat × ShaderParameter)) (g : Nat) :
    init ≤ maxParamEnd init ps g
      ∧ (∀ e ∈ ps, e.2.buffer_ = g → e.2.paramEnd ≤ maxParamEnd init ps g)
      ∧ (maxParamEnd init ps g = init
          ∨ ∃ e ∈ ps, e.2.buffer_ = g ∧ e.2.paramEnd = maxParamEnd init ps g) := by
  induction ps generalizing init with
  | nil => exact ⟨le_refl _, fun _ h => absurd h (List.not_mem_nil _), Or.inl rfl⟩
  | cons e ps ih =>
    by_cases hb : e.2.buffer_ = g
    · have hcons : maxParamEnd init (e :: ps) g = maxParamEnd (max init e.2.paramEnd) ps g := by
        simp [maxParamEnd, hb]
      rw [hcons]
      obtain ⟨h1, h2, h3⟩ := ih (max init e.2.paramEnd)
      refine ⟨le_trans (le_max_left _ _) h1, ?_, ?_⟩
      · intro e2 he2 hb2
        rcases List.mem_cons.mp he2 with rfl | hmem
        · exact le_trans (le_max_right _ _) h1
        · exact h2 e2 hmem hb2
      · rcases h3 with h3 | ⟨e2, he2, hb2, hend⟩
        · rcases le_total init e.2.paramEnd with hle | hle
          · right
            exact ⟨e, List.mem_cons_self _ _, hb, by rw [h3, max_eq_right hle]⟩
          · left
            rw [h3, max_eq_left hle]
        · right
          exact ⟨e2, List.mem_cons_of_mem _ he2, hb2, hend⟩
    · have hcons : maxParamEnd init (e :: ps) g = maxParamEnd init ps g := by
        simp [maxParamEnd, hb]
      rw [hcons]
      obtain ⟨h1, h2, h3⟩ := ih init
      refine ⟨h1, ?_, ?_⟩
      · intro e2 he2 hb2
        rcases List.mem_cons.mp he2 with rfl | hmem
        · exact absurd hb2 hb
        · exact h2 e2 hmem hb2
      · rcases h3 with h3 | ⟨e2, he2, hb2, hend⟩
        · exact Or.inl h3
        · exact Or.inr ⟨e2, List.mem_cons_of_mem _ he2, hb2, hend⟩

/-- The maximum does not depend on the order of the parameters. -/
theorem maxParamEnd_perm (init : Nat) (ps qs : List (Nat × ShaderParameter)) (g : Nat)
    (h : ps.Perm qs) : maxParamEnd init ps g = maxParamEnd init qs g := by
  unfold maxParamEnd
  apply List.Perm.foldl_eq' (h.filter _)
  intro x _ y _ z
  simp only [max_assoc, max_comm x.2.paramEnd]

/-- Two size arrays of the same length with equal entries are equal. -/
theorem sizes_eq_of_getD (xs ys : List Nat) (hlen : xs.length = ys.length)
    (h : ∀ g, g < xs.length → xs.getD g 0 = ys.getD g 0) : xs = ys := by
  apply List.ext_getElem hlen
  intro g h1 h2
  have := h g h1
  rw [List.getD_eq_getElem?_getD, List.getD_eq_getElem?_getD, List.getElem?_eq_getElem h1,
    List.getElem?_eq_getElem h2] at this
  simpa using this

/-- The sizes after `CalculateConstantBufferSizes_D3D11` in closed form. -/
theorem calculate_getD (s : ShaderVariation) (g : Nat) (hg : g < s.constantBufferSizes_.length) :
    s.CalculateConstantBufferSizes_D3D11.constantBufferSizes_.length
        = s.constantBufferSizes_.length
      ∧ s.CalculateConstantBufferSizes_D3D11.constantBufferSizes_.getD g 0
        = maxParamEnd 0 s.parameters_ g := by
  obtain ⟨hlen, hget⟩ := foldl_constantBufferStep s.parameters_
    (s.constantBufferSizes_.map fun _ => 0)
  simp only [List.length_map] at hlen hget
  refine ⟨hlen, ?_⟩
  have hz : (s.constantBufferSizes_.map fun _ => 0).getD g 0 = 0 := by
    rw [List.getD_eq_getElem?_getD]
    simp [hg]
  have := hget g hg
  rw [hz] at this
  exact this

/-- Parameters whose buffer index is not a parameter group do not count. -/
theorem maxParamEnd_filter (ps : List (Nat × ShaderParameter)) (n g : Nat) (hg : g < n) :
    maxParamEnd 0 (ps.filter fun e => decide (e.2.buffer_ < n)) g = maxParamEnd 0 ps g := by
  unfold maxParamEnd
  rw [List.filter_filter]
  congr 1
  apply List.filter_congr
  intro e _
  by_cases hb : e.2.buffer_ = g
  · simp [hb, hg]
  · simp [hb]

/-- Two variations with as many parameter groups and the same maxima per group
get the same sizes. -/
theorem calculate_congr (s t : ShaderVariation)
    (hlen : t.constantBufferSizes_.length = s.constantBufferSizes_.length)
    (h : ∀ k, k < s.constantBufferSizes_.length →
      maxParamEnd 0 t.parameters_ k = maxParamEnd 0 s.parameters_ k) :
    t.CalculateConstantBufferSizes_D3D11.constantBufferSizes_
      = s.CalculateConstantBufferSizes_D3D11.constantBufferSizes_ := by
  have hl : ∀ u : ShaderVariation,
      u.CalculateConstantBufferSizes_D3D11.constantBufferSizes_.length
        = u.constantBufferSizes_.length := by
    intro u
    have := (foldl_constantBufferStep u.parameters_ (u.constantBufferSizes_.map fun _ => 0)).1
    simpa [ShaderVariation.CalculateConstantBufferSizes_D3D11] using this
  apply sizes_eq_of_getD
  · rw [hl t, hl s, hlen]
  · intro k hk
    rw [hl t] at hk
    have hks : k < s.constantBufferSizes_.length := by rw [← hlen]; exact hk
    rw [(calculate_getD t k hk).2, (calculate_getD s k hks).2]
    exact h k hks

/-- C20: after `CalculateConstantBufferSizes_D3D11`, for a group index `g`
below `MAX_SHADER_PARAMETER_GROUPS` the entry `constantBufferSizes_[g]` is the
maximum of `offset_ + size_` (unsigned 32-bit, that is modulo `2^32`) over the
parameters with `buffer_ == g`: it bounds every such sum, is attained by one of
them when there is any, and is 0 when there is none. Parameters with a
`buffer_` that is no group index are ignored, and the result depends neither on
the iteration order of the map nor on the previous contents of the array. -/
theorem calculateConstantBufferSizes_max (s : ShaderVariation) (g : Nat)
    (hg : g < s.constantBufferSizes_.length) :
    s.CalculateConstantBufferSizes_D3D11.constantBufferSizes_.length
        = s.constantBufferSizes_.length
      ∧ (∀ e ∈ s.parameters_, e.2.buffer_ = g →
          (e.2.offset_ + e.2.size_) % 4294967296
            ≤ s.CalculateConstantBufferSizes_D3D11.constantBufferSizes_.getD g 0)
      ∧ ((∃ e ∈ s.parameters_, e.2.buffer_ = g) →
          ∃ e ∈ s.parameters_, e.2.buffer_ = g
            ∧ (e.2.offset_ + e.2.size_) % 4294967296
              = s.CalculateConstantBufferSizes_D3D11.constantBufferSizes_.getD g 0)
      ∧ ((∀ e ∈ s.parameters_, e.2.buffer_ ≠ g) →
          s.CalculateConstantBufferSizes_D3D11.constantBufferSizes_.getD g 0 = 0)
      ∧ (ShaderVariation.CalculateConstantBufferSizes_D3D11
            { s with parameters_ := s.parameters_.filter fun e =>
                decide (e.2.buffer_ < s.constantBufferSizes_.length) }).constantBufferSizes_
          = s.CalculateConstantBufferSizes_D3D11.constantBufferSizes_
      ∧ (∀ qs, qs.Perm s.parameters_ →
          (ShaderVariation.CalculateConstantBufferSizes_D3D11
              { s with parameters_ := qs }).constantBufferSizes_
            = s.CalculateConstantBufferSizes_D3D11.constantBufferSizes_)
      ∧ (∀ old, old.length = s.constantBufferSizes_.length →
          (ShaderVariation.CalculateConstantBufferSizes_D3D11
              { s with constantBufferSizes_ := old }).constantBufferSizes_
            = s.CalculateConstantBufferSizes_D3D11.constantBufferSizes_) := by
  obtain ⟨hlen, hget⟩ := calculate_getD s g hg
  obtain ⟨_, hub, hatt⟩ := maxParamEnd_spec 0 s.parameters_ g
  simp only [ShaderParameter.paramEnd, wrapU32] at hub hatt
  refine ⟨hlen, ?_, ?_, ?_, ?_, ?_, ?_⟩
  · intro e he hb
    rw [hget]
    exact hub e he hb
  · rintro ⟨e, he, hb⟩
    rw [hget]
    rcases hatt with h0 | hex
    · refine ⟨e, he, hb, ?_⟩
      have := hub e he hb
      omega
    · exact hex
  · intro hnone
    rw [hget]
    rcases hatt with h0 | ⟨e, he, hb, _⟩
    · exact h0
    · exact absurd hb (hnone e he)
  · exact calculate_congr s _ rfl fun k hk => maxParamEnd_filter s.parameters_ _ k hk
  · intro qs hperm
    exact calculate_congr s _ rfl fun k _ => maxParamEnd_perm 0 qs s.parameters_ k hperm
  · intro old hold
    exact calculate_congr s _ hold fun k _ => rfl

/-- The sizes computed for the sample variation, whatever the array held: the
parameters of group 4 end at 16 and at 48. -/
theorem calculate_sample_sizes :
    sampleStaleVariation.CalculateConstantBufferSizes_D3D11.constantBufferSizes_
        = [0, 0, 0, 0, 48, 0, 0]
      ∧ sampleCompiledVariation.CalculateConstantBufferSizes_D3D11.constantBufferSizes_
        = [0, 0, 0, 0, 48, 0, 0] := by
  decide

/-- Witness for C20: group 4 of the sample variation, whose array held the
stale value 9 in every group. The parameter at offset 32 of size 16 is bounded
by the computed size, the computed size is the sum of one parameter of the
group, and the computed array is `[0, 0, 0, 0, 48, 0, 0]`. -/
theorem calculateConstantBufferSizes_max_witness :
    4 < sampleStaleVariation.constantBufferSizes_.length
      ∧ (32 + 16) % 4294967296
          ≤ sampleStaleVariation.CalculateConstantBufferSizes_D3D11.constantBufferSizes_.getD 4 0
      ∧ (∃ e ∈ sampleStaleVariation.parameters_, e.2.buffer_ = 4
          ∧ (e.2.offset_ + e.2.size_) % 4294967296
            = sampleStaleVariation.CalculateConstantBufferSizes_D3D11.constantBufferSizes_.getD 4 0)
      ∧ sampleStaleVariation.CalculateConstantBufferSizes_D3D11.constantBufferSizes_
        = [0, 0, 0, 0, 48, 0, 0] :=
  ⟨by decide,
    (calculateConstantBufferSizes_max sampleStaleVariation 4 (by decide)).2.1
      (16, { type_ := ShaderType.PS, name_ := "MatEmissiveColor", offset_ := 32, size_ := 16,
             buffer_ := 4 }) (by decide) rfl,
    (calculateConstantBufferSizes_max sampleStaleVariation 4 (by decide)).2.2.1
      ⟨(16, { type_ := ShaderType.PS, name_ := "MatEmissiveColor", offset_ := 32, size_ := 16,
              buffer_ := 4 }), by decide, rfl⟩,
    by decide⟩

/-! ### The shader bytecode cache -/

/-- A load that fails before the header is read leaves the variation as it
was: no file, a file older than the source, a null file, or a wrong file ID. -/
theorem loadByteCode_rejected_early (stringHash : String → Nat) (cache : CacheFile)
    (s : ShaderVariation)
    (h : cache.found = false
      ∨ (cache.sourceTimeStamp ≠ 0 ∧ cache.lastModifiedTime < cache.sourceTimeStamp)
      ∨ cache.file = none
      ∨ ∃ f, cache.file = some f ∧ (readFileID f).1 ≠ "USHD") :
    s.LoadByteCode_D3D11 stringHash cache = (s, false) := by
  unfold ShaderVariation.LoadByteCode_D3D11
  by_cases h1 : cache.found = false
  · simp [h1]
  · by_cases h2 : cache.sourceTimeStamp ≠ 0 ∧ cache.lastModifiedTime < cache.sourceTimeStamp
    · simp only [h1, Bool.not_eq_true, if_false, if_pos h2]
      simp
    · have h3 : cache.file = none ∨ ∃ f, cache.file = some f ∧ (readFileID f).1 ≠ "USHD" := by
        rcases h with h | h | h | h
        · exact absurd h h1
        · exact absurd h h2
        · exact Or.inl h
        · exact Or.inr h
      have h1' : (!cache.found) = false := by simpa using h1
      simp only [h1', Bool.false_eq_true, if_false, if_neg h2]
      rcases h3 with h3 | ⟨f, hf, hid⟩
      · rw [h3]
      · rw [hf]
        simp only [if_pos hid]

/-- C19: `LoadByteCode_D3D11` is not atomic on failure. Reading a cache file
with a valid header, one parameter, one texture unit and zero-length bytecode
into a released variation returns false, yet leaves the element hash, the
parameter and the texture unit of the file in the variation. -/
theorem loadByteCode_failure_keeps_read_state :
    sampleReleasedVariation.LoadByteCode_D3D11 sampleStringHash sampleTruncatedCacheFile
        = ({ sampleReleasedVariation with
              elementHash_ := 38654705664,
              parameters_ := [(12, { type_ := ShaderType.VS, name_ := "MatDiffColor",
                                     offset_ := 0, size_ := 16, buffer_ := 4 })],
              useTextureUnits_ := true :: List.replicate 15 false }, false)
      ∧ (sampleReleasedVariation.LoadByteCode_D3D11 sampleStringHash
          sampleTruncatedCacheFile).1 ≠ sampleReleasedVariation := by
  decide

/-- Assigning under a key the map does not hold appends a new entry. -/
theorem hashSet_of_not_mem {κ β : Type} [DecidableEq κ] (m : List (κ × β)) (key : κ) (value : β)
    (h : key ∉ m.map Prod.fst) : hashSet m key value = m ++ [(key, value)] := by
  unfold hashSet
  have hany : m.any (fun e => decide (e.1 = key)) = false := by
    rw [List.any_eq_false]
    intro e he
    have : e.1 ≠ key := by
      intro hk
      exact h (hk ▸ List.mem_map_of_mem Prod.fst he)
    simpa using this
  rw [hany]
  simp

/-- Reading back the parameters that were written rebuilds the map entry by
entry, each parameter tagged with the type of the reading variation. -/
theorem readParameters_written (stringHash : String → Nat) (type : ShaderType)
    (ps acc : List (Nat × ShaderParameter)) (rest : List FileItem)
    (hps : ∀ e ∈ ps, e.1 = stringHash e.2.name_ ∧ e.2.buffer_ < 256
      ∧ e.2.offset_ < 4294967296 ∧ e.2.size_ < 4294967296)
    (hnd : ((acc ++ ps).map Prod.fst).Nodup) :
    readParameters stringHash type ps.length acc (writeParameters ps ++ rest)
      = (acc ++ ps.map (retagParameter type), rest) := by
  induction ps generalizing acc with
  | nil => simp [readParameters, writeParameters]
  | cons e ps ih =>
    obtain ⟨hk, hb, ho, hs⟩ := hps e (List.mem_cons_self _ _)
    have hfile : writeParameters (e :: ps) ++ rest
        = FileItem.str e.2.name_ :: FileItem.u8 (e.2.buffer_ % 256)
            :: FileItem.u32 (wrapU32 e.2.offset_) :: FileItem.u32 (wrapU32 e.2.size_)
            :: (writeParameters ps ++ rest) := by
      simp [writeParameters]
    have hbm : e.2.buffer_ % 256 = e.2.buffer_ := Nat.mod_eq_of_lt hb
    have hom : wrapU32 e.2.offset_ = e.2.offset_ := Nat.mod_eq_of_lt ho
    have hsm : wrapU32 e.2.size_ = e.2.size_ := Nat.mod_eq_of_lt hs
    have hnew : e.1 ∉ acc.map Prod.fst := by
      intro hmem
      rw [List.map_append, List.map_cons] at hnd
      have := (List.nodup_append.mp hnd).2.2 hmem
      exact this (List.mem_cons_self _ _)
    have hnd2 : (((acc ++ [retagParameter type e]) ++ ps).map Prod.fst).Nodup := by
      simpa [retagParameter] using hnd
    rw [hfile, List.length_cons, readParameters]
    simp only [readString, readU8, readU32, hbm, hom, hsm, ← hk]
    rw [hashSet_of_not_mem acc e.1 _ hnew]
    have := ih (acc ++ [retagParameter type e])
      (fun x hx => hps x (List.mem_cons_of_mem _ hx)) hnd2
    simp only [retagParameter] at this ⊢
    rw [this]
    simp [retagParameter]

/-- Reading back the texture units that were written marks each written
register, in order. -/
theorem readTextureUnits_written (unitName : Nat → String) (idx : List Nat) (units : List Bool)
    (rest : List FileItem) (hidx : ∀ i ∈ idx, i < 256) :
    readTextureUnits idx.length units
        ((idx.flatMap fun i => [FileItem.str (unitName i), FileItem.u8 (i % 256)]) ++ rest)
      = (idx.foldl (fun u i => if i < u.length then u.set i true else u) units, rest) := by
  induction idx generalizing units with
  | nil => simp [readTextureUnits]
  | cons i idx ih =>
    have hi : i % 256 = i := Nat.mod_eq_of_lt (hidx i (List.mem_cons_self _ _))
    have hfile : ((i :: idx).flatMap fun i => [FileItem.str (unitName i), FileItem.u8 (i % 256)])
          ++ rest
        = FileItem.str (unitName i) :: FileItem.u8 (i % 256)
            :: ((idx.flatMap fun i => [FileItem.str (unitName i), FileItem.u8 (i % 256)]) ++ rest) := by
      simp
    rw [hfile, List.length_cons, readTextureUnits]
    simp only [readString, readU8, hi, List.foldl_cons]
    exact ih _ (fun j hj => hidx j (List.mem_cons_of_mem _ hj))

/-- Marking a list of registers keeps the number of units and turns on exactly
the registers of the list that are in range. -/
theorem foldl_mark_units (idx : List Nat) (units : List Bool) :
    (idx.foldl (fun u i => if i < u.length then u.set i true else u) units).length = units.length
      ∧ ∀ j, (idx.foldl (fun u i => if i < u.length then u.set i true else u) units).getD j false
          = (units.getD j false || decide (j ∈ idx ∧ j < units.length)) := by
  induction idx generalizing units with
  | nil => simp
  | cons i idx ih =>
    have hlen : (if i < units.length then units.set i true else units).length = units.length := by
      split_ifs <;> simp
    have hget : ∀ j, (if i < units.length then units.set i true else units).getD j false
        = (units.getD j false || decide (j = i ∧ j < units.length)) := by
      intro j
      by_cases hi : i < units.length
      · rw [if_pos hi]
        by_cases hj : j = i
        · subst hj
          rw [List.getD_eq_getElem?_getD, List.getElem?_set_self hi]
          simp [hi]
        · have hne : i ≠ j := fun h => hj h.symm
          rw [List.getD_eq_getElem?_getD, List.getElem?_set_ne hne, ← List.getD_eq_getElem?_getD]
          simp [hj]
      · rw [if_neg hi]
        have : ¬ (j = i ∧ j < units.length) := fun h => hi (h.1 ▸ h.2)
        simp [this]
    obtain ⟨h1, h2⟩ := ih (if i < units.length then units.set i true else units)
    simp only [List.foldl_cons]
    refine ⟨by rw [h1, hlen], ?_⟩
    intro j
    rw [h2 j, hget j, hlen]
    by_cases hj : j = i
    · subst hj
      by_cases hl : j < units.length <;> simp [hl]
    · by_cases hm : j ∈ idx <;> by_cases hl : j < units.length <;> simp [hj, hm, hl]

/-- Two unit arrays of the same length with equal entries are equal. -/
theorem units_eq_of_getD (xs ys : List Bool) (hlen : xs.length = ys.length)
    (h : ∀ j, j < xs.length → xs.getD j false = ys.getD j false) : xs = ys := by
  apply List.ext_getElem hlen
  intro j h1 h2
  have := h j h1
  rw [List.getD_eq_getElem?_getD, List.getD_eq_getElem?_getD, List.getElem?_eq_getElem h1,
    List.getElem?_eq_getElem h2] at this
  simpa using this

/-- Marking the units in use on an array of unused units gives back the array
of units in use. -/
theorem mark_used_units (units : List Bool) :
    (usedTextureUnits units).foldl (fun u i => if i < u.length then u.set i true else u)
        (units.map fun _ => false)
      = units := by
  obtain ⟨hlen, hget⟩ := foldl_mark_units (usedTextureUnits units) (units.map fun _ => false)
  apply units_eq_of_getD
  · rw [hlen]
    simp
  · intro j hj
    rw [hlen, List.length_map] at hj
    rw [hget j]
    have hz : (units.map fun _ => false).getD j false = false := by
      rw [List.getD_eq_getElem?_getD]
      simp [hj]
    rw [hz]
    have hgd : units.getD j false = units[j] := by
      rw [List.getD_eq_getElem?_getD, List.getElem?_eq_getElem hj]
      rfl
    cases hu : units[j] <;> simp [usedTextureUnits, hj, hgd, hu]

/-- An array of unused texture units is determined by its length. -/
theorem unused_units_eq (a b : List Bool) (ha : a = a.map fun _ => false)
    (hlen : a.length = b.length) : a = b.map fun _ => false := by
  rw [ha]
  apply units_eq_of_getD
  · simp [hlen]
  · intro j hj
    rw [List.length_map] at hj
    rw [List.getD_eq_getElem?_getD, List.getD_eq_getElem?_getD]
    simp [hj, hlen ▸ hj]

/-- Replacing the type tag of the parameters does not change the maxima of
their ends. -/
theorem maxParamEnd_retag (type : ShaderType) (ps : List (Nat × ShaderParameter)) (init g : Nat) :
    maxParamEnd init (ps.map (retagParameter type)) g = maxParamEnd init ps g := by
  induction ps generalizing init with
  | nil => rfl
  | cons e ps ih =>
    by_cases hb : e.2.buffer_ = g
    · simp only [maxParamEnd, List.map_cons, retagParameter, List.filter_cons, hb, decide_True,
        if_true, List.foldl_cons, ShaderParameter.paramEnd] at ih ⊢
      exact ih _
    · simp only [maxParamEnd, List.map_cons, retagParameter, List.filter_cons, hb, decide_False,
        Bool.false_eq_true, if_false] at ih ⊢
      exact ih _

/-- The file written by `SaveByteCode_D3D11`, item by item. -/
theorem saveByteCode_items (unitName : Nat → String) (s : ShaderVariation)
    (hbc : s.byteCode_ ≠ []) :
    s.SaveByteCode_D3D11 unitName true
      = some (FileItem.fileID "USHD" :: FileItem.u16 (s.type_.code % 65536) :: FileItem.u16 4
          :: FileItem.u32 (wrapU32 (s.elementHash_ / 4294967296))
          :: FileItem.u32 (wrapU32 s.parameters_.length)
          :: (writeParameters s.parameters_
            ++ (FileItem.u32 (wrapU32 (usedTextureUnits s.useTextureUnits_).length)
              :: (writeTextureUnits unitName s.useTextureUnits_
                ++ [FileItem.u32 (wrapU32 s.byteCode_.length), FileItem.raw s.byteCode_])))) := by
  have hlen : s.byteCode_.length ≠ 0 := fun h => hbc (List.length_eq_zero.mp h)
  simp [ShaderVariation.SaveByteCode_D3D11, hlen]

/-- Loading the file that `SaveByteCode_D3D11` wrote for `s` into a released
variation `t` succeeds and yields the variation with the element hash,
parameters, texture units and bytecode of `s`, its sizes recomputed. -/
theorem loadByteCode_of_saved (stringHash : String → Nat) (unitName : Nat → String)
    (s t : ShaderVariation) (cache : CacheFile)
    (hbc : s.byteCode_ ≠ [])
    (hkeys : ∀ e ∈ s.parameters_, e.1 = stringHash e.2.name_)
    (hbuf : ∀ e ∈ s.parameters_, e.2.buffer_ < 256)
    (hhash : s.elementHash_ % 4294967296 = 0)
    (hwf : s.WellFormed) (hrel : t.IsReleased)
    (hunits : t.useTextureUnits_.length = s.useTextureUnits_.length)
    (hfound : cache.found = true)
    (hfresh : cache.sourceTimeStamp = 0 ∨ cache.sourceTimeStamp ≤ cache.lastModifiedTime)
    (hfile : cache.file = s.SaveByteCode_D3D11 unitName true) :
    t.LoadByteCode_D3D11 stringHash cache
      = (ShaderVariation.CalculateConstantBufferSizes_D3D11
          { t with elementHash_ := s.elementHash_,
                   parameters_ := s.parameters_.map (retagParameter t.type_),
                   useTextureUnits_ := s.useTextureUnits_,
                   byteCode_ := s.byteCode_ }, true) := by
  obtain ⟨hh64, hpl, hbl, hrange, hnd, hul⟩ := hwf
  obtain ⟨htp, _, _, htu, _⟩ := hrel
  have hstale : ¬ (cache.sourceTimeStamp ≠ 0 ∧ cache.lastModifiedTime < cache.sourceTimeStamp) := by
    omega
  have hn : wrapU32 s.parameters_.length = s.parameters_.length := Nat.mod_eq_of_lt hpl
  have hcount : wrapU32 (usedTextureUnits s.useTextureUnits_).length
      = (usedTextureUnits s.useTextureUnits_).length := by
    apply Nat.mod_eq_of_lt
    have : (usedTextureUnits s.useTextureUnits_).length ≤ s.useTextureUnits_.length := by
      unfold usedTextureUnits
      exact le_trans (List.length_filter_le _ _) (by simp)
    omega
  have hblen : wrapU32 s.byteCode_.length = s.byteCode_.length := Nat.mod_eq_of_lt hbl
  have hbne : s.byteCode_.length ≠ 0 := fun h => hbc (List.length_eq_zero.mp h)
  have hel : wrapU32 (s.elementHash_ / 4294967296) * 4294967296 % 18446744073709551616
      = s.elementHash_ := by
    unfold wrapU32
    omega
  have hps := readParameters_written stringHash t.type_ s.parameters_ []
    (FileItem.u32 (wrapU32 (usedTextureUnits s.useTextureUnits_).length)
      :: (writeTextureUnits unitName s.useTextureUnits_
        ++ [FileItem.u32 (wrapU32 s.byteCode_.length), FileItem.raw s.byteCode_]))
    (fun e he => ⟨hkeys e he, hbuf e he, hrange e he⟩) (by simpa using hnd)
  have hidx : ∀ i ∈ usedTextureUnits s.useTextureUnits_, i < 256 := by
    intro i hi
    unfold usedTextureUnits at hi
    have := (List.mem_filter.mp hi).1
    rw [List.mem_range] at this
    omega
  have hus := readTextureUnits_written unitName (usedTextureUnits s.useTextureUnits_)
    (s.useTextureUnits_.map fun _ => false)
    [FileItem.u32 (wrapU32 s.byteCode_.length), FileItem.raw s.byteCode_] hidx
  rw [mark_used_units] at hus
  have htunits : t.useTextureUnits_ = s.useTextureUnits_.map fun _ => false :=
    unused_units_eq _ _ htu hunits
  have hraw : (s.byteCode_.take s.byteCode_.length
      ++ List.replicate (s.byteCode_.length - s.byteCode_.length) 0) = s.byteCode_ := by
    simp
  rw [hcount, hblen] at hps
  rw [hblen] at hus
  simp only [writeTextureUnits, List.nil_append] at hps
  unfold ShaderVariation.LoadByteCode_D3D11
  rw [hfile, saveByteCode_items unitName s hbc]
  simp only [hfound, Bool.not_true, Bool.false_eq_true, if_false, if_neg hstale, readFileID,
    ne_eq, not_true_eq_false, readU16, readU32, hel, hn, htp, hps, List.nil_append, hcount,
    htunits, writeTextureUnits, hus, hblen, hbne, not_false_eq_true, if_true, readRaw, hraw]

/-- Computing the sizes twice gives the same as computing them once. -/
theorem calculate_idempotent (u : ShaderVariation) :
    u.CalculateConstantBufferSizes_D3D11.CalculateConstantBufferSizes_D3D11.constantBufferSizes_
      = u.CalculateConstantBufferSizes_D3D11.constantBufferSizes_ := by
  have hlen : u.CalculateConstantBufferSizes_D3D11.constantBufferSizes_.length
      = u.constantBufferSizes_.length := by
    have := (foldl_constantBufferStep u.parameters_ (u.constantBufferSizes_.map fun _ => 0)).1
    simpa [ShaderVariation.CalculateConstantBufferSizes_D3D11] using this
  exact calculate_congr u u.CalculateConstantBufferSizes_D3D11 hlen fun k _ => rfl

/-- After every successful `LoadByteCode_D3D11` the array
`constantBufferSizes_` holds the sizes computed from `parameters_`. -/
theorem loadByteCode_sizes_computed (stringHash : String → Nat) (cache : CacheFile)
    (t : ShaderVariation) (h : (t.LoadByteCode_D3D11 stringHash cache).2 = true) :
    (t.LoadByteCode_D3D11 stringHash cache).1.constantBufferSizes_
      = (ShaderVariation.CalculateConstantBufferSizes_D3D11
          (t.LoadByteCode_D3D11 stringHash cache).1).constantBufferSizes_ := by
  have key : ∃ u : ShaderVariation, (t.LoadByteCode_D3D11 stringHash cache).1
      = u.CalculateConstantBufferSizes_D3D11 := by
    unfold ShaderVariation.LoadByteCode_D3D11 at h ⊢
    by_cases h1 : (!cache.found) = true
    · simp [h1] at h
    · by_cases h2 : cache.sourceTimeStamp ≠ 0 ∧ cache.lastModifiedTime < cache.sourceTimeStamp
      · simp [h1, h2] at h
      · cases hf : cache.file with
        | none => simp [h1, h2, hf] at h
        | some f =>
          by_cases h3 : (readFileID f).1 ≠ "USHD"
          · simp [h1, h2, hf, h3] at h
          · simp only [h1, if_false, if_neg h2, hf, if_neg h3] at h ⊢
            split_ifs at h ⊢
            all_goals exact ⟨_, rfl⟩
  obtain ⟨u, hu⟩ := key
  rw [hu]
  exact (calculate_idempotent u).symm

/-- Counterexample for C12: the sample variation with a sizes array of 9 in
every group meets every named condition (non-empty bytecode, parameters stored
under their hash with `buffer_ < 256`, element hash 0). Its saved file loads
into the released variation with result true, but `constantBufferSizes_` comes
back as the sizes computed from the parameters, not as the saved array. -/
theorem shader_roundtrip_recomputes_sizes :
    (sampleStaleVariation.byteCode_ ≠ []
        ∧ (∀ e ∈ sampleStaleVariation.parameters_, e.1 = sampleStringHash e.2.name_)
        ∧ (∀ e ∈ sampleStaleVariation.parameters_, e.2.buffer_ < 256)
        ∧ sampleStaleVariation.elementHash_ % 4294967296 = 0)
      ∧ (sampleStaleVariation.Release_D3D11.LoadByteCode_D3D11 sampleStringHash
          sampleStaleCacheFile).2 = true
      ∧ (sampleStaleVariation.Release_D3D11.LoadByteCode_D3D11 sampleStringHash
          sampleStaleCacheFile).1.constantBufferSizes_ = [0, 0, 0, 0, 48, 0, 0]
      ∧ sampleStaleVariation.constantBufferSizes_ = [9, 9, 9, 9, 9, 9, 9]
      ∧ (sampleStaleVariation.Release_D3D11.LoadByteCode_D3D11 sampleStringHash
          sampleStaleCacheFile).1.constantBufferSizes_
        ≠ sampleStaleVariation.constantBufferSizes_ := by
  decide

/-- C12 (amended): the shader bytecode cache round-trips all it stores. Let `s`
be a variation with non-empty `byteCode_`, every parameter stored under
`StringHash(name_)` with `buffer_ < 256`, and an `elementHash_` whose low 32
bits are zero. When the file written by `SaveByteCode_D3D11` is found by the
cache and is not older than the source, `LoadByteCode_D3D11` into a freshly
released variation of the same `type_` returns true and restores equal
`elementHash_`, `parameters_` (key, name, buffer, offset, size),
`useTextureUnits_` and `byteCode_`. The array `constantBufferSizes_` is not
stored: it comes back as the sizes `CalculateConstantBufferSizes_D3D11`
computes from the parameters of `s`, and so equals the array of `s` exactly
when that array held the computed sizes. -/
theorem shader_bytecode_roundtrip (stringHash : String → Nat) (unitName : Nat → String)
    (s t : ShaderVariation) (cache : CacheFile)
    (hbc : s.byteCode_ ≠ [])
    (hkeys : ∀ e ∈ s.parameters_, e.1 = stringHash e.2.name_)
    (hbuf : ∀ e ∈ s.parameters_, e.2.buffer_ < 256)
    (hhash : s.elementHash_ % 4294967296 = 0)
    (hwf : s.WellFormed)
    (htype : t.type_ = s.type_) (hrel : t.IsReleased)
    (hunits : t.useTextureUnits_.length = s.useTextureUnits_.length)
    (hgroups : t.constantBufferSizes_.length = s.constantBufferSizes_.length)
    (hfound : cache.found = true)
    (hfresh : cache.sourceTimeStamp = 0 ∨ cache.sourceTimeStamp ≤ cache.lastModifiedTime)
    (hfile : cache.file = s.SaveByteCode_D3D11 unitName true) :
    (t.LoadByteCode_D3D11 stringHash cache).2 = true
      ∧ (t.LoadByteCode_D3D11 stringHash cache).1.elementHash_ = s.elementHash_
      ∧ (t.LoadByteCode_D3D11 stringHash cache).1.parameters_.map parameterRecord
          = s.parameters_.map parameterRecord
      ∧ (∀ e ∈ (t.LoadByteCode_D3D11 stringHash cache).1.parameters_, e.2.type_ = s.type_)
      ∧ (t.LoadByteCode_D3D11 stringHash cache).1.useTextureUnits_ = s.useTextureUnits_
      ∧ (t.LoadByteCode_D3D11 stringHash cache).1.byteCode_ = s.byteCode_
      ∧ (t.LoadByteCode_D3D11 stringHash cache).1.constantBufferSizes_
          = s.CalculateConstantBufferSizes_D3D11.constantBufferSizes_
      ∧ ((t.LoadByteCode_D3D11 stringHash cache).1.constantBufferSizes_ = s.constantBufferSizes_
          ↔ s.constantBufferSizes_ = s.CalculateConstantBufferSizes_D3D11.constantBufferSizes_) := by
  rw [loadByteCode_of_saved stringHash unitName s t cache hbc hkeys hbuf hhash hwf hrel hunits
    hfound hfresh hfile]
  have hsizes : (ShaderVariation.CalculateConstantBufferSizes_D3D11
      { t with elementHash_ := s.elementHash_,
               parameters_ := s.parameters_.map (retagParameter t.type_),
               useTextureUnits_ := s.useTextureUnits_,
               byteCode_ := s.byteCode_ }).constantBufferSizes_
      = s.CalculateConstantBufferSizes_D3D11.constantBufferSizes_ :=
    calculate_congr s _ hgroups fun k _ => maxParamEnd_retag t.type_ s.parameters_ 0 k
  refine ⟨rfl, rfl, ?_, ?_, rfl, rfl, hsizes, ?_⟩
  · simp [ShaderVariation.CalculateConstantBufferSizes_D3D11, List.map_map, Function.comp_def,
      parameterRecord, retagParameter]
  · intro e he
    simp only [ShaderVariation.CalculateConstantBufferSizes_D3D11, List.mem_map] at he
    obtain ⟨e0, _, rfl⟩ := he
    exact htype
  · simp only
    rw [hsizes]
    exact eq_comm

/-- Witness for C12: the sample variation saved and loaded into its released
self comes back with its element hash, parameters, texture units, bytecode and
the sizes `[0, 0, 0, 0, 48, 0, 0]` it held. -/
theorem shader_bytecode_roundtrip_witness :
    sampleCompiledVariation.byteCode_ ≠ []
      ∧ (sampleCompiledVariation.Release_D3D11.LoadByteCode_D3D11 sampleStringHash
          sampleSavedCacheFile).2 = true
      ∧ (sampleCompiledVariation.Release_D3D11.LoadByteCode_D3D11 sampleStringHash
          sampleSavedCacheFile).1.parameters_.map parameterRecord
        = [(12, "MatDiffColor", 4, 0, 16), (16, "MatEmissiveColor", 4, 32, 16)]
      ∧ (sampleCompiledVariation.Release_D3D11.LoadByteCode_D3D11 sampleStringHash
          sampleSavedCacheFile).1.useTextureUnits_ = [true, false, true, false]
      ∧ (sampleCompiledVariation.Release_D3D11.LoadByteCode_D3D11 sampleStringHash
          sampleSavedCacheFile).1.byteCode_ = [68, 88, 66, 67]
      ∧ (sampleCompiledVariation.Release_D3D11.LoadByteCode_D3D11 sampleStringHash
          sampleSavedCacheFile).1.constantBufferSizes_ = [0, 0, 0, 0, 48, 0, 0] :=
  have h := shader_bytecode_roundtrip sampleStringHash (fun i => toString i)
    sampleCompiledVariation sampleCompiledVariation.Release_D3D11 sampleSavedCacheFile
    (by decide) (by decide) (by decide) (by decide) (by decide) rfl (by decide)
    (by decide) (by decide) rfl (by decide) rfl
  ⟨by decide, h.1, h.2.2.1, h.2.2.2.2.1, h.2.2.2.2.2.1,
    h.2.2.2.2.2.2.1.trans calculate_sample_sizes.2⟩

end Dviglo
